import Mathlib

set_option autoImplicit false
set_option maxHeartbeats 1000000

/-!
Shallow embedding of the audio policy configuration deserializer
(`services/audiopolicy/common/managerdefinitions/src/Serializer.cpp`) and
proofs about its behaviour.  The XML document is modelled as a tree of
elements; `status_t` is modelled by the two codes the serializer uses;
process-wide statics (`forceDisableA2dpOffload`, `fixedEarpieceChannels`,
the gain index counter) are threaded explicitly as a `LoadState`.
External collection classes and symbolic converters (TypeConverter,
DeviceVector, ...) are not part of the source file; where the embedding
needs them they are modelled from the specification and marked as such.
-/

/-- status_t outcomes used by the serializer: `NO_ERROR` and `BAD_VALUE`. -/
inductive StatusT where
  | NO_ERROR
  | BAD_VALUE
deriving DecidableEq, Repr

/-- audio_port_role_t restricted to the two values the serializer produces. -/
inductive AudioPortRole where
  | source
  | sink
deriving DecidableEq, Repr

/-- audio_route_type_t: `AUDIO_ROUTE_MIX` or `AUDIO_ROUTE_MUX`. -/
inductive AudioRouteType where
  | mix
  | mux
deriving DecidableEq, Repr

def UINT32_MOD : Nat := 2 ^ 32

def gDynamicFormat : Nat := 0
def AUDIO_FORMAT_PCM_16_BIT : Nat := 1
def AUDIO_FORMAT_PCM_8_BIT : Nat := 2
def AUDIO_FORMAT_AC3 : Nat := 0x9000000
def AUDIO_FORMAT_E_AC3 : Nat := 0xA000000

def AUDIO_CHANNEL_OUT_MONO : Nat := 1
def AUDIO_CHANNEL_OUT_STEREO : Nat := 3
def AUDIO_CHANNEL_IN_MONO : Nat := 16
def AUDIO_CHANNEL_IN_STEREO : Nat := 12

def AUDIO_DEVICE_BIT_IN : Nat := 2 ^ 31
def AUDIO_DEVICE_OUT_EARPIECE : Nat := 1
def AUDIO_DEVICE_OUT_SPEAKER : Nat := 2
def AUDIO_DEVICE_OUT_WIRED_HEADSET : Nat := 4
def AUDIO_DEVICE_OUT_BLUETOOTH_SCO_HEADSET : Nat := 32
def AUDIO_DEVICE_OUT_BLUETOOTH_A2DP : Nat := 128
def AUDIO_DEVICE_OUT_BLUETOOTH_A2DP_HEADPHONES : Nat := 256
def AUDIO_DEVICE_OUT_BLUETOOTH_A2DP_SPEAKER : Nat := 512
def AUDIO_DEVICE_OUT_TELEPHONY_TX : Nat := 0x10000
def AUDIO_DEVICE_IN_BUILTIN_MIC : Nat := AUDIO_DEVICE_BIT_IN + 4
def AUDIO_DEVICE_IN_BLUETOOTH_SCO_HEADSET : Nat := AUDIO_DEVICE_BIT_IN + 8
def AUDIO_DEVICE_IN_WIRED_HEADSET : Nat := AUDIO_DEVICE_BIT_IN + 16
def AUDIO_DEVICE_IN_TELEPHONY_RX : Nat := AUDIO_DEVICE_BIT_IN + 0x10000

/-- Modelled from the spec: `audio_is_input_device` lives in the platform audio
headers, outside this source file.  Input device types carry the dedicated
input bit (bit 31, `AUDIO_DEVICE_BIT_IN`). -/
def audio_is_input_device (d : Nat) : Bool := d.testBit 31

/-- Modelled from the spec: `audio_is_output_devices` lives in the platform audio
headers, outside this source file.  Output device types lack the input bit. -/
def audio_is_output_devices (d : Nat) : Bool := ! d.testBit 31

/-- A document element: name, attributes, child elements and text content.
xmlNodeListGetString on a childless node is modelled by empty text. -/
inductive XmlNode where
  | node (name : String) (attrs : List (String × String)) (children : List XmlNode)
      (text : String)

def XmlNode.name : XmlNode → String
  | .node n _ _ _ => n

def XmlNode.attrs : XmlNode → List (String × String)
  | .node _ a _ _ => a

def XmlNode.children : XmlNode → List XmlNode
  | .node _ _ c _ => c

def XmlNode.text : XmlNode → String
  | .node _ _ _ t => t

/-- `getXmlAttribute`: the textual value of a named attribute, or `""` when the
attribute is absent (the source maps a null `xmlGetProp` result to `""`). -/
def getXmlAttribute (cur : XmlNode) (attr : String) : String :=
  match cur.attrs.lookup attr with
  | some v => v
  | none => ""

/-- Structural single-character splitter over the character list of a string
(the behaviour of `strtok`-style splitting before empty-token filtering, and
of `std::string` splitting on a one-character delimiter). -/
def splitOnCharList (c : Char) : List Char → List (List Char)
  | [] => [[]]
  | x :: xs =>
    match splitOnCharList c xs with
    | [] => if x = c then [[], []] else [[x]]
    | y :: ys => if x = c then [] :: y :: ys else (x :: y) :: ys

/-- Split a string on a single-character delimiter. -/
def splitOnChar (c : Char) (s : String) : List String :=
  (splitOnCharList c s.data).map String.mk

/-- `isspace` on the characters the serializer's `trim` strips. -/
def isSpaceChar (c : Char) : Bool :=
  c == ' ' || c == '\t' || c == '\n' || c == '\r'

/-- Strict decimal parse (the success case of `convertTo` for unsigned
integers): all characters must be digits. -/
def parseNatFromString (s : String) : Option Nat :=
  if s.data ≠ [] ∧ s.data.all Char.isDigit then
    some (s.data.foldl (fun n c => n * 10 + (c.toNat - 48)) 0)
  else none

/-- Strict decimal parse with an optional leading minus sign (the success case
of `convertTo` for signed integers). -/
def parseIntFromString (s : String) : Option Int :=
  match s.data with
  | '-' :: rest => (parseNatFromString (String.mk rest)).map (fun n => -(n : Int))
  | _ => (parseNatFromString s).map Int.ofNat

/-- Modelled from the spec: the external symbolic device-type converter
(TypeConverter, not part of this source file), restricted to the device-type
literals this development uses; unknown literals fail. -/
def deviceFromString (s : String) : Option Nat :=
  if s = "AUDIO_DEVICE_OUT_EARPIECE" then some AUDIO_DEVICE_OUT_EARPIECE
  else if s = "AUDIO_DEVICE_OUT_SPEAKER" then some AUDIO_DEVICE_OUT_SPEAKER
  else if s = "AUDIO_DEVICE_OUT_WIRED_HEADSET" then some AUDIO_DEVICE_OUT_WIRED_HEADSET
  else if s = "AUDIO_DEVICE_OUT_BLUETOOTH_SCO_HEADSET" then
    some AUDIO_DEVICE_OUT_BLUETOOTH_SCO_HEADSET
  else if s = "AUDIO_DEVICE_OUT_BLUETOOTH_A2DP" then some AUDIO_DEVICE_OUT_BLUETOOTH_A2DP
  else if s = "AUDIO_DEVICE_OUT_BLUETOOTH_A2DP_HEADPHONES" then
    some AUDIO_DEVICE_OUT_BLUETOOTH_A2DP_HEADPHONES
  else if s = "AUDIO_DEVICE_OUT_BLUETOOTH_A2DP_SPEAKER" then
    some AUDIO_DEVICE_OUT_BLUETOOTH_A2DP_SPEAKER
  else if s = "AUDIO_DEVICE_OUT_TELEPHONY_TX" then some AUDIO_DEVICE_OUT_TELEPHONY_TX
  else if s = "AUDIO_DEVICE_IN_BUILTIN_MIC" then some AUDIO_DEVICE_IN_BUILTIN_MIC
  else if s = "AUDIO_DEVICE_IN_BLUETOOTH_SCO_HEADSET" then
    some AUDIO_DEVICE_IN_BLUETOOTH_SCO_HEADSET
  else if s = "AUDIO_DEVICE_IN_WIRED_HEADSET" then some AUDIO_DEVICE_IN_WIRED_HEADSET
  else if s = "AUDIO_DEVICE_IN_TELEPHONY_RX" then some AUDIO_DEVICE_IN_TELEPHONY_RX
  else none

/-- Modelled from the spec: the external symbolic format converter, restricted to
the format literals this development uses; unknown literals fail. -/
def formatFromStringOpt (s : String) : Option Nat :=
  if s = "AUDIO_FORMAT_PCM_16_BIT" then some AUDIO_FORMAT_PCM_16_BIT
  else if s = "AUDIO_FORMAT_PCM_8_BIT" then some AUDIO_FORMAT_PCM_8_BIT
  else if s = "AUDIO_FORMAT_AC3" then some AUDIO_FORMAT_AC3
  else if s = "AUDIO_FORMAT_E_AC3" then some AUDIO_FORMAT_E_AC3
  else none

/-- `formatFromString(str, defaultFormat)`: falls back on the given default when
the literal is unknown or empty. -/
def formatFromString (s : String) (dflt : Nat) : Nat :=
  match formatFromStringOpt s with
  | some f => f
  | none => dflt

/-- Modelled from the spec: the external single-channel-mask converter; returns
`AUDIO_CHANNEL_NONE` (0) on failure. -/
def channelMaskFromString (s : String) : Nat :=
  if s = "AUDIO_CHANNEL_OUT_MONO" then AUDIO_CHANNEL_OUT_MONO
  else if s = "AUDIO_CHANNEL_OUT_STEREO" then AUDIO_CHANNEL_OUT_STEREO
  else if s = "AUDIO_CHANNEL_IN_MONO" then AUDIO_CHANNEL_IN_MONO
  else if s = "AUDIO_CHANNEL_IN_STEREO" then AUDIO_CHANNEL_IN_STEREO
  else 0

/-- Insertion into a `std::set` modelled as a sorted duplicate-free list. -/
def insertSortedSet (x : Nat) : List Nat → List Nat
  | [] => [x]
  | y :: ys =>
    if x < y then x :: y :: ys
    else if x = y then y :: ys
    else y :: insertSortedSet x ys

/-- Modelled from the spec: the external comma-separated channel-mask list
converter; tokens that fail to convert are dropped; the result is a
`std::set` (sorted, duplicate-free). -/
def channelMasksFromString (s : String) : List Nat :=
  ((splitOnChar ',' s).filterMap (fun tok =>
      let m := channelMaskFromString tok
      if m = 0 then none else some m)).foldl (fun acc x => insertSortedSet x acc) []

/-- Modelled from the spec: the external comma-separated sample-rate list
converter; unparsable tokens are dropped; the result is a `std::set`. -/
def samplingRatesFromString (s : String) : List Nat :=
  ((splitOnChar ',' s).filterMap parseNatFromString).foldl
    (fun acc x => insertSortedSet x acc) []

/-- Modelled from the spec: the external delimiter-separated format-list
converter (single-character delimiter); unknown literals are dropped. -/
def formatsFromString (s : String) (delim : Char) : List Nat :=
  (splitOnChar delim s).filterMap formatFromStringOpt

/-- Modelled from the spec: the external gain-mode bit-flag converter
(`GainModeConverter::maskFromString`): tokens are OR-ed, unknown tokens
contribute nothing. -/
def gainModeMaskFromString (s : String) : Nat :=
  ((splitOnChar '|' s).filterMap (fun tok =>
      if tok = "AUDIO_GAIN_MODE_JOINT" then some 1
      else if tok = "AUDIO_GAIN_MODE_CHANNELS" then some 2
      else if tok = "AUDIO_GAIN_MODE_RAMP" then some 4
      else none)).foldl (fun acc x => acc ||| x) 0

/-- Modelled from the spec: the external boolean converter `convertTo<string,bool>`. -/
def boolFromString (s : String) : Option Bool :=
  if s = "true" then some true
  else if s = "false" then some false
  else none

/-- `trim`: strips leading and trailing whitespace (the source's `trim` helper
over `isspace`). -/
def trim (s : String) : String :=
  String.mk (((s.data.dropWhile isSpaceChar).reverse.dropWhile isSpaceChar).reverse)

/-- Process-wide mutable state of the serializer, threaded explicitly:
the static gain index counter (a `uint32_t`, kept reduced mod 2^32) and the
two quirk flags. -/
structure LoadState where
  gainIndex : Nat
  forceDisableA2dpOffload : Bool
  fixedEarpieceChannels : Bool
deriving DecidableEq, Repr

/-- AudioProfile: format, channel-mask set, sample-rate set and dynamic flags. -/
structure AudioProfile where
  format : Nat
  channelMasks : List Nat
  sampleRates : List Nat
  isDynamicFormat : Bool
  isDynamicChannels : Bool
  isDynamicRate : Bool
deriving DecidableEq, Repr

/-- Modelled from the spec: `AudioProfile::createFullDynamic` (AudioProfile is
outside this source file) — the synthetic fully-dynamic profile. -/
def AudioProfile.createFullDynamic : AudioProfile :=
  { format := gDynamicFormat
    channelMasks := []
    sampleRates := []
    isDynamicFormat := true
    isDynamicChannels := true
    isDynamicRate := true }

/-- AudioGain: sequence index plus the parsed attribute fields.  Fields not set
by the parser keep the constructor defaults (zero / false). -/
structure AudioGain where
  index : Nat
  mode : Nat
  channelMask : Nat
  minValueMB : Int
  maxValueMB : Int
  defaultValueMB : Int
  stepValueMB : Nat
  minRampMs : Nat
  maxRampMs : Nat
  useForVolume : Bool
deriving DecidableEq, Repr

/-- IOProfile (a mix port): name, role, profiles, gains, the flags attribute
kept with the vocabulary (role) used to interpret it, the open/active count
attributes, and non-owning back-links (route ids) added by `addRoute`. -/
structure IOProfile where
  name : String
  role : AudioPortRole
  profiles : List AudioProfile
  gains : List AudioGain
  flags : Option (AudioPortRole × String)
  maxOpenCount : Nat
  maxActiveCount : Nat
  routes : List Nat
deriving DecidableEq, Repr

/-- DeviceDescriptor (a device port): tag name, device type, address, encoded
formats, profiles, gains, and non-owning back-links (route ids). -/
structure DeviceDescriptor where
  tagName : String
  deviceType : Nat
  address : String
  encodedFormats : List Nat
  profiles : List AudioProfile
  gains : List AudioGain
  routes : List Nat
deriving DecidableEq, Repr

/-- AudioRoute: identified by an allocation id (the pointer identity of
`new AudioRoute`), with type, sink tag and resolved source tags.  Ports are
referred to by tag name, the key of the module's port namespace. -/
structure AudioRoute where
  rid : Nat
  rtype : AudioRouteType
  sink : String
  sources : List String
deriving DecidableEq, Repr

/-- HwModule: name, HAL version, and the owned port and route collections. -/
structure HwModule where
  name : String
  halVersionMajor : Nat
  halVersionMinor : Nat
  mixPorts : List IOProfile
  devicePorts : List DeviceDescriptor
  routes : List AudioRoute
deriving DecidableEq, Repr

/-- AudioPolicyConfig: the load's output object. -/
structure AudioPolicyConfig where
  hwModules : List HwModule
  availableDevices : List DeviceDescriptor
  defaultOutputDevice : Option DeviceDescriptor
  speakerDrcEnabled : Bool
  callScreenModeSupported : Bool
  engineLibrarySuffix : String
  surroundFormats : List (Nat × List Nat)
  surroundFormatsUseDefault : Bool
deriving DecidableEq, Repr

/-- Modelled from the spec: `AudioPolicyConfig::addDevice` adds to the set of
attached-device references (a set: re-adding an already-attached device is a
no-op). -/
def AudioPolicyConfig.addDevice (cfg : AudioPolicyConfig) (d : DeviceDescriptor) :
    AudioPolicyConfig :=
  if cfg.availableDevices.contains d then cfg
  else { cfg with availableDevices := cfg.availableDevices ++ [d] }

/-- Modelled from the spec: `DeviceVector::getDeviceFromTagName` — the first
declared device carrying the given tag name. -/
def getDeviceFromTagName (devices : List DeviceDescriptor) (t : String) :
    Option DeviceDescriptor :=
  devices.find? (fun d => d.tagName = t)

/-- Modelled from the spec: `HwModule::findPortByTagName` resolves a tag name in
the module's combined mix+device port namespace; the port is identified by its
(unique) tag. -/
def HwModule.findPortByTagName (m : HwModule) (t : String) : Option String :=
  if m.mixPorts.any (fun p => p.name = t) then some t
  else if m.devicePorts.any (fun d => d.tagName = t) then some t
  else none

/-- Update the first list entry satisfying `p`. -/
def updateFirst {α : Type} (p : α → Bool) (f : α → α) : List α → List α
  | [] => []
  | x :: xs => if p x then f x :: xs else x :: updateFirst p f xs

/-- Modelled from the spec: `PolicyAudioPort::addRoute` — record on the port
named `t` (mix ports searched first, as in the lookup) a non-owning back-link
to the route with id `rid`. -/
def HwModule.addRouteToPort (m : HwModule) (t : String) (rid : Nat) : HwModule :=
  if m.mixPorts.any (fun p => p.name = t) then
    let mps := updateFirst (fun p => p.name = t)
      (fun p => { p with routes := p.routes ++ [rid] }) m.mixPorts
    { m with mixPorts := mps }
  else
    let dps := updateFirst (fun d => d.tagName = t)
      (fun d => { d with routes := d.routes ++ [rid] }) m.devicePorts
    { m with devicePorts := dps }

/-- The back-link list of the port named `t` (the same port `addRouteToPort`
updates). -/
def HwModule.portRouteIds (m : HwModule) (t : String) : List Nat :=
  if m.mixPorts.any (fun p => p.name = t) then
    match m.mixPorts.find? (fun p => p.name = t) with
    | some p => p.routes
    | none => []
  else
    match m.devicePorts.find? (fun d => d.tagName = t) with
    | some d => d.routes
    | none => []

/-- Inner child walk of `deserializeCollection` (Serializer.cpp:313-327): parse
each child matching the entity tag; a parse failure is logged and skipped; an
insertion failure aborts with that status. -/
def collectionInnerLoop {σ ε γ : Type} (tag : String)
    (parse : XmlNode → σ → (Except StatusT ε) × σ)
    (insert : ε → γ → Except StatusT γ) :
    List XmlNode → γ → σ → StatusT × γ × σ
  | [], c, s => (.NO_ERROR, c, s)
  | child :: rest, c, s =>
    if child.name = tag then
      match parse child s with
      | (.ok e, s') =>
        match insert e c with
        | .ok c' => collectionInnerLoop tag parse insert rest c' s'
        | .error st => (st, c, s')
      | (.error _, s') => collectionInnerLoop tag parse insert rest c s'
    else collectionInnerLoop tag parse insert rest c s

/-- `deserializeCollection` (Serializer.cpp:301-333) over the child list of an
element: a child matching the wrapping-collection tag has its own children
walked; a child matching the bare entity tag starts the walk at itself and its
following siblings, returning right after. -/
def deserializeCollection {σ ε γ : Type} (collectionTag tag : String)
    (parse : XmlNode → σ → (Except StatusT ε) × σ)
    (insert : ε → γ → Except StatusT γ) :
    List XmlNode → γ → σ → StatusT × γ × σ
  | [], c, s => (.NO_ERROR, c, s)
  | cur :: rest, c, s =>
    let childList : List XmlNode :=
      if cur.name = collectionTag then cur.children
      else if cur.name = tag then cur :: rest
      else []
    match collectionInnerLoop tag parse insert childList c s with
    | (.NO_ERROR, c', s') =>
      if cur.name = tag then (.NO_ERROR, c', s')
      else deserializeCollection collectionTag tag parse insert rest c' s'
    | (.BAD_VALUE, c', s') => (.BAD_VALUE, c', s')

/-- Ordering of profiles by audio format, the sort key of `sortAudioProfiles`. -/
def profileLE (p q : AudioProfile) : Prop := p.format ≤ q.format

instance : DecidableRel profileLE := fun p q => Nat.decLe p.format q.format

instance : IsTotal AudioProfile profileLE := ⟨fun p q => Nat.le_total p.format q.format⟩

instance : IsTrans AudioProfile profileLE := ⟨fun _ _ _ h h' => Nat.le_trans h h'⟩

/-- Modelled from the spec: `sortAudioProfiles` (outside this source file) keeps
the profile list sorted by format. -/
def sortAudioProfiles (ps : List AudioProfile) : List AudioProfile :=
  List.insertionSort profileLE ps

/-- Role parsing shared by mix and device ports: the role attribute maps to
`AUDIO_PORT_ROLE_SOURCE` exactly when it equals the `roleSource` literal
`"source"`, and to `AUDIO_PORT_ROLE_SINK` otherwise. -/
def portRoleFromString (role : String) : AudioPortRole :=
  if role = "source" then .source else .sink

/-- `AudioGainTraits::deserialize` (Serializer.cpp:335-400): allocates the next
value of the static `uint32_t` index counter, reads the gain attributes
(failed conversions keep the constructor defaults), and rejects the gain when
the parsed mode mask is zero.  The counter increments even for a rejected
gain. -/
def AudioGainTraits.deserialize (cur : XmlNode) (st : LoadState) :
    (Except StatusT AudioGain) × LoadState :=
  let index := st.gainIndex
  let st := { st with gainIndex := (st.gainIndex + 1) % UINT32_MOD }
  let mode := getXmlAttribute cur "mode"
  let gmode := if mode ≠ "" then gainModeMaskFromString mode else 0
  let channelsLiteral := getXmlAttribute cur "channel_mask"
  let gchannelMask := if channelsLiteral ≠ "" then channelMaskFromString channelsLiteral else 0
  let minValueMBLiteral := getXmlAttribute cur "minValueMB"
  let gmin : Int := if minValueMBLiteral ≠ "" then (parseIntFromString minValueMBLiteral).getD 0 else 0
  let maxValueMBLiteral := getXmlAttribute cur "maxValueMB"
  let gmax : Int := if maxValueMBLiteral ≠ "" then (parseIntFromString maxValueMBLiteral).getD 0 else 0
  let defaultValueMBLiteral := getXmlAttribute cur "defaultValueMB"
  let gdefault : Int := if defaultValueMBLiteral ≠ "" then (parseIntFromString defaultValueMBLiteral).getD 0 else 0
  let stepValueMBLiteral := getXmlAttribute cur "stepValueMB"
  let gstep := if stepValueMBLiteral ≠ "" then (parseNatFromString stepValueMBLiteral).getD 0 else 0
  let minRampMsLiteral := getXmlAttribute cur "minRampMs"
  let gminRamp := if minRampMsLiteral ≠ "" then (parseNatFromString minRampMsLiteral).getD 0 else 0
  let maxRampMsLiteral := getXmlAttribute cur "maxRampMs"
  let gmaxRamp := if maxRampMsLiteral ≠ "" then (parseNatFromString maxRampMsLiteral).getD 0 else 0
  let useForVolumeLiteral := getXmlAttribute cur "useForVolume"
  let guseForVolume := if useForVolumeLiteral ≠ "" then
      (boolFromString useForVolumeLiteral).getD false else false
  let gain : AudioGain :=
    { index := index, mode := gmode, channelMask := gchannelMask,
      minValueMB := gmin, maxValueMB := gmax, defaultValueMB := gdefault,
      stepValueMB := gstep, minRampMs := gminRamp, maxRampMs := gmaxRamp,
      useForVolume := guseForVolume }
  if gain.mode ≠ 0 then (.ok gain, st) else (.error .BAD_VALUE, st)

/-- Modelled from the spec: gains carry no key within their collection; the
collection add appends. -/
def AudioGainTraits.addElementToCollection (e : AudioGain) (c : List AudioGain) :
    Except StatusT (List AudioGain) :=
  .ok (c ++ [e])

/-- `AudioProfileTraits::deserialize` (Serializer.cpp:402-427): `isOutput`
models a non-null serializing context.  When the resolved channel-mask set is
exactly the singleton `AUDIO_CHANNEL_IN_MONO` in an output context, the set is
replaced by `AUDIO_CHANNEL_OUT_MONO` and the `fixedEarpieceChannels` marker is
set.  Profile parsing itself never fails. -/
def AudioProfileTraits.deserialize (isOutput : Bool) (cur : XmlNode) (st : LoadState) :
    (Except StatusT AudioProfile) × LoadState :=
  let samplingRates := getXmlAttribute cur "samplingRates"
  let format := getXmlAttribute cur "format"
  let channels := getXmlAttribute cur "channelMasks"
  let channelsMask := channelMasksFromString channels
  let fix := channelsMask = [AUDIO_CHANNEL_IN_MONO] ∧ isOutput = true
  let channelsMask2 := if fix then channelMasksFromString "AUDIO_CHANNEL_OUT_MONO"
    else channelsMask
  let st2 := if fix then { st with fixedEarpieceChannels := true } else st
  let fmt := formatFromString format gDynamicFormat
  let rates := samplingRatesFromString samplingRates
  let profile : AudioProfile :=
    { format := fmt, channelMasks := channelsMask2, sampleRates := rates,
      isDynamicFormat := decide (fmt = gDynamicFormat),
      isDynamicChannels := channelsMask2.isEmpty,
      isDynamicRate := rates.isEmpty }
  (.ok profile, st2)

/-- Modelled from the spec: profiles carry no key; the collection add appends. -/
def AudioProfileTraits.addElementToCollection (e : AudioProfile) (c : List AudioProfile) :
    Except StatusT (List AudioProfile) :=
  .ok (c ++ [e])

/-- Modelled from the spec: mix-port insertion enforces tag-name uniqueness
within the module's mix-port collection (collection classes are outside this
source file); a duplicate key is rejected with `BAD_VALUE`. -/
def MixPortTraits.addElementToCollection (e : IOProfile) (c : List IOProfile) :
    Except StatusT (List IOProfile) :=
  if c.any (fun p => p.name = e.name) then .error .BAD_VALUE else .ok (c ++ [e])

/-- Modelled from the spec: device-port insertion enforces tag-name uniqueness
within the module's device-port collection; a duplicate key is rejected with
`BAD_VALUE`. -/
def DevicePortTraits.addElementToCollection (e : DeviceDescriptor) (c : List DeviceDescriptor) :
    Except StatusT (List DeviceDescriptor) :=
  if c.any (fun d => d.tagName = e.tagName) then .error .BAD_VALUE else .ok (c ++ [e])

/-- `MixPortTraits::deserialize` (Serializer.cpp:429-489): requires non-empty
name and role; substitutes one fully-dynamic profile when no profile was
declared and sorts profiles by format; failed count conversions keep the
defaults (1). -/
def MixPortTraits.deserialize (child : XmlNode) (st : LoadState) :
    (Except StatusT IOProfile) × LoadState :=
  let name := getXmlAttribute child "name"
  if name = "" then (.error .BAD_VALUE, st)
  else
    let role := getXmlAttribute child "role"
    if role = "" then (.error .BAD_VALUE, st)
    else
      let portRole := portRoleFromString role
      match deserializeCollection "profiles" "profile"
          (AudioProfileTraits.deserialize false) AudioProfileTraits.addElementToCollection
          child.children [] st with
      | (.NO_ERROR, profiles0, st1) =>
        let profiles1 := if profiles0.isEmpty then [AudioProfile.createFullDynamic] else profiles0
        let profiles2 := sortAudioProfiles profiles1
        let flagsLiteral := getXmlAttribute child "flags"
        let flags := if flagsLiteral ≠ "" then some (portRole, flagsLiteral) else none
        let maxOpenCountLiteral := getXmlAttribute child "maxOpenCount"
        let maxOpenCount := if maxOpenCountLiteral ≠ "" then (parseNatFromString maxOpenCountLiteral).getD 1
          else 1
        let maxActiveCountLiteral := getXmlAttribute child "maxActiveCount"
        let maxActiveCount := if maxActiveCountLiteral ≠ "" then
            (parseNatFromString maxActiveCountLiteral).getD 1 else 1
        match deserializeCollection "gains" "gain" AudioGainTraits.deserialize
            AudioGainTraits.addElementToCollection child.children [] st1 with
        | (.NO_ERROR, gains, st2) =>
          (.ok { name := name, role := portRole, profiles := profiles2, gains := gains,
                 flags := flags, maxOpenCount := maxOpenCount,
                 maxActiveCount := maxActiveCount, routes := [] }, st2)
        | (.BAD_VALUE, _, st2) => (.error .BAD_VALUE, st2)
      | (.BAD_VALUE, _, st1) => (.error .BAD_VALUE, st1)

/-- `DevicePortTraits::deserialize` (Serializer.cpp:491-556): requires
non-empty tag name, type and role; rejects a type that fails to convert or is
structurally incompatible with the role; profile parsing runs in an output
context exactly when the device type is an output type; substitutes one
fully-dynamic profile when none was declared and sorts by format. -/
def DevicePortTraits.deserialize (cur : XmlNode) (st : LoadState) :
    (Except StatusT DeviceDescriptor) × LoadState :=
  let name := getXmlAttribute cur "tagName"
  if name = "" then (.error .BAD_VALUE, st)
  else
    let typeName := getXmlAttribute cur "type"
    if typeName = "" then (.error .BAD_VALUE, st)
    else
      let role := getXmlAttribute cur "role"
      if role = "" then (.error .BAD_VALUE, st)
      else
        let portRole := portRoleFromString role
        match deviceFromString typeName with
        | none => (.error .BAD_VALUE, st)
        | some ty =>
          if (audio_is_input_device ty = false ∧ portRole = .source) ∨
              (audio_is_output_devices ty = false ∧ portRole = .sink) then
            (.error .BAD_VALUE, st)
          else
            let encodedFormatsLiteral := getXmlAttribute cur "encodedFormats"
            let encodedFormats := if encodedFormatsLiteral ≠ "" then
                formatsFromString encodedFormatsLiteral ' ' else []
            let address := getXmlAttribute cur "address"
            match deserializeCollection "profiles" "profile"
                (AudioProfileTraits.deserialize (audio_is_output_devices ty))
                AudioProfileTraits.addElementToCollection cur.children [] st with
            | (.NO_ERROR, profiles0, st1) =>
              let profiles1 := if profiles0.isEmpty then [AudioProfile.createFullDynamic]
                else profiles0
              let profiles2 := sortAudioProfiles profiles1
              match deserializeCollection "gains" "gain" AudioGainTraits.deserialize
                  AudioGainTraits.addElementToCollection cur.children [] st1 with
              | (.NO_ERROR, gains, st2) =>
                (.ok { tagName := name, deviceType := ty, address := address,
                       encodedFormats := encodedFormats, profiles := profiles2,
                       gains := gains, routes := [] }, st2)
              | (.BAD_VALUE, _, st2) => (.error .BAD_VALUE, st2)
            | (.BAD_VALUE, _, st1) => (.error .BAD_VALUE, st1)

/-- `RouteTraits::deserialize` (Serializer.cpp:569-628): requires type, sink
and sources attributes; the sink tag must resolve among the module's already
registered ports or the route fails; each comma-separated source token is
resolved as-is and then trimmed, unresolved tokens are dropped; on success the
sink and every resolved source receive a back-link to the new route. -/
def RouteTraits.deserialize (cur : XmlNode) (ctx : HwModule × Nat) :
    (Except StatusT AudioRoute) × (HwModule × Nat) :=
  let m := ctx.1
  let nextRid := ctx.2
  let type := getXmlAttribute cur "type"
  if type = "" then (.error .BAD_VALUE, ctx)
  else
    let routeType := if type = "mix" then AudioRouteType.mix else AudioRouteType.mux
    let rid := nextRid
    let sinkAttr := getXmlAttribute cur "sink"
    if sinkAttr = "" then (.error .BAD_VALUE, (m, nextRid + 1))
    else
      match m.findPortByTagName sinkAttr with
      | none => (.error .BAD_VALUE, (m, nextRid + 1))
      | some _ =>
        let sourcesAttr := getXmlAttribute cur "sources"
        if sourcesAttr = "" then (.error .BAD_VALUE, (m, nextRid + 1))
        else
          let sources := ((splitOnChar ',' sourcesAttr).filter (fun tok => tok ≠ "")).filterMap
            (fun devTag =>
              match m.findPortByTagName devTag with
              | some p => some p
              | none => m.findPortByTagName (trim devTag))
          let m1 := m.addRouteToPort sinkAttr rid
          let m2 := sources.foldl (fun mm s => mm.addRouteToPort s rid) m1
          (.ok { rid := rid, rtype := routeType, sink := sinkAttr, sources := sources },
            (m2, nextRid + 1))

/-- Modelled from the spec: routes carry no key within their collection; the
collection add appends. -/
def RouteTraits.addElementToCollection (e : AudioRoute) (c : List AudioRoute) :
    Except StatusT (List AudioRoute) :=
  .ok (c ++ [e])

/-- Erase the first list entry satisfying `p` (the `std::find_if` + `erase`
idiom of the module quirks). -/
def eraseFirstSuchThat {α : Type} (p : α → Bool) : List α → List α
  | [] => []
  | x :: xs => if p x then xs else x :: eraseFirstSuchThat p xs

/-- The route scan of `fixupQualcommBtScoRoute` (Serializer.cpp:655-679):
accumulates whether a mix route sinking into "Telephony Tx" and a mix route
with a "BT SCO Headset Mic" source were seen, stopping early at the first mix
route sinking into "BT SCO Headset". -/
def scoScanRoutes : List AudioRoute → Bool → Bool → Bool × Bool × Bool
  | [], foundTelephony, foundBtScoInput => (foundTelephony, foundBtScoInput, false)
  | route :: rest, foundTelephony, foundBtScoInput =>
    if route.rtype ≠ .mix then scoScanRoutes rest foundTelephony foundBtScoInput
    else if route.sink = "Telephony Tx" then scoScanRoutes rest true foundBtScoInput
    else if route.sink = "BT SCO Headset" then (foundTelephony, foundBtScoInput, true)
    else scoScanRoutes rest foundTelephony
      (foundBtScoInput || route.sources.contains "BT SCO Headset Mic")

/-- `fixupQualcommBtScoRoute` (Serializer.cpp:630-720): when a "BT SCO Headset"
device port exists, no mix route sinks into it, a mix route sinks into
"Telephony Tx" and a mix route has a "BT SCO Headset Mic" source, append one
mix route sinking into "BT SCO Headset" whose sources are those of
{"primary output", "deep_buffer", "compressed_offload", "Telephony Rx"} that
resolve in the module (each receiving a back-link), and give the sink a
back-link. -/
def fixupQualcommBtScoRoute (routes : List AudioRoute)
    (devicePorts : List DeviceDescriptor) (m : HwModule) (rid : Nat) :
    List AudioRoute × HwModule × Nat :=
  if ! devicePorts.any (fun d => d.tagName = "BT SCO Headset") then (routes, m, rid)
  else
    let scan := scoScanRoutes routes false false
    let foundTelephony := scan.1
    let foundBtScoInput := scan.2.1
    let foundScoHeadsetRoute := scan.2.2
    if foundScoHeadsetRoute then (routes, m, rid)
    else if ! foundTelephony || ! foundBtScoInput then (routes, m, rid)
    else
      let sources := (["primary output", "deep_buffer", "compressed_offload",
          "Telephony Rx"]).filterMap (fun s => m.findPortByTagName s)
      let m1 := sources.foldl (fun mm s => mm.addRouteToPort s rid) m
      let m2 := match m.findPortByTagName "BT SCO Headset" with
        | some s => m1.addRouteToPort s rid
        | none => m1
      let newRoute : AudioRoute :=
        { rid := rid, rtype := .mix, sink := "BT SCO Headset", sources := sources }
      (routes ++ [newRoute], m2, rid + 1)

/-- The synthesized software source mix port "a2dp output" with one
fully-dynamic profile (Serializer.cpp:760-767). -/
def a2dpSynthMixPort : IOProfile :=
  { name := "a2dp output", role := .source,
    profiles := [AudioProfile.createFullDynamic], gains := [], flags := none,
    maxOpenCount := 1, maxActiveCount := 1, routes := [] }

/-- The a2dp mix-port fixup of `ModuleTraits::deserialize`
(Serializer.cpp:750-768): in the "a2dp" module, an already present
"a2dp output" mix port clears the process-wide flag; while the flag remains
set, the synthesized "a2dp output" source mix port is appended. -/
def moduleApplyA2dpMixPorts (isA2dpModule : Bool) (mixPorts : List IOProfile)
    (st : LoadState) : List IOProfile × LoadState :=
  let st1 := if st.forceDisableA2dpOffload = true ∧ isA2dpModule = true ∧
      mixPorts.any (fun p => p.name = "a2dp output") then
      { st with forceDisableA2dpOffload := false } else st
  if st1.forceDisableA2dpOffload = true ∧ isA2dpModule = true then
    (mixPorts ++ [a2dpSynthMixPort], st1)
  else (mixPorts, st1)

def a2dpOuts : List String := ["BT A2DP Out", "BT A2DP Headphones", "BT A2DP Speaker"]

/-- One synthesized A2DP device port (Serializer.cpp:787-846): fixed
PCM-16-bit / stereo profile at {44100, 48000, 96000} Hz and the shared
"lhdc_a2dp" address. -/
def mkA2dpSynthDevicePort (devType : Nat) (tag : String) : DeviceDescriptor :=
  let profile : AudioProfile :=
    { format := AUDIO_FORMAT_PCM_16_BIT,
      channelMasks := [AUDIO_CHANNEL_OUT_STEREO],
      sampleRates := [44100, 48000, 96000],
      isDynamicFormat := false, isDynamicChannels := false, isDynamicRate := false }
  { tagName := tag, deviceType := devType, address := "lhdc_a2dp",
    encodedFormats := [], profiles := [profile], gains := [], routes := [] }

/-- The a2dp device-port fixup of `ModuleTraits::deserialize`
(Serializer.cpp:776-859): while the flag is set, the "a2dp" module gains the
three synthesized Bluetooth device ports, and the "primary" module has the
first device port carrying each of those names erased. -/
def moduleApplyA2dpDevicePorts (isA2dpModule isPrimaryModule : Bool)
    (devicePorts : List DeviceDescriptor) (st : LoadState) : List DeviceDescriptor :=
  if st.forceDisableA2dpOffload = true then
    if isA2dpModule = true then
      devicePorts ++
        [mkA2dpSynthDevicePort AUDIO_DEVICE_OUT_BLUETOOTH_A2DP "BT A2DP Out",
         mkA2dpSynthDevicePort AUDIO_DEVICE_OUT_BLUETOOTH_A2DP_HEADPHONES "BT A2DP Headphones",
         mkA2dpSynthDevicePort AUDIO_DEVICE_OUT_BLUETOOTH_A2DP_SPEAKER "BT A2DP Speaker"]
    else if isPrimaryModule = true then
      a2dpOuts.foldl (fun dps out => eraseFirstSuchThat (fun d => d.tagName == out) dps)
        devicePorts
    else devicePorts
  else devicePorts

/-- One synthesized a2dp route (Serializer.cpp:888-931): a mix route from the
"a2dp output" source into the named synthesized device port, with back-links
on both ends. -/
def addSynthA2dpRoute (sinkName : String) (acc : List AudioRoute × HwModule × Nat) :
    List AudioRoute × HwModule × Nat :=
  let routes := acc.1
  let m := acc.2.1
  let rid := acc.2.2
  let sinkOpt := m.findPortByTagName sinkName
  let sourceOpt := m.findPortByTagName "a2dp output"
  let srcs := match sourceOpt with
    | some s => [s]
    | none => []
  let m1 := match sinkOpt with
    | some s => m.addRouteToPort s rid
    | none => m
  let m2 := match sourceOpt with
    | some s => m1.addRouteToPort s rid
    | none => m1
  (routes ++ [{ rid := rid, rtype := .mix, sink := sinkName, sources := srcs }], m2, rid + 1)

/-- The a2dp route fixup of `ModuleTraits::deserialize`
(Serializer.cpp:867-933): while the flag is set, the "primary" module has the
first mix route sinking into each synthesized device-port name erased, and the
"a2dp" module gains one synthesized route per synthesized device port. -/
def moduleApplyA2dpRoutes (name : String) (routes : List AudioRoute) (m : HwModule)
    (rid : Nat) (st : LoadState) : List AudioRoute × HwModule × Nat :=
  if st.forceDisableA2dpOffload = true then
    if name = "primary" then
      (a2dpOuts.foldl (fun rs out => eraseFirstSuchThat
          (fun r => r.rtype == AudioRouteType.mix && r.sink == out) rs) routes, m, rid)
    else if name = "a2dp" then
      addSynthA2dpRoute "BT A2DP Speaker"
        (addSynthA2dpRoute "BT A2DP Headphones"
          (addSynthA2dpRoute "BT A2DP Out" (routes, m, rid)))
    else (routes, m, rid)
  else (routes, m, rid)

/-- One child of the module element's topology walk (Serializer.cpp:939-981):
an "attachedDevices" child attaches each resolvable "item" device to the
config; a "defaultOutputDevice" child sets the config-level default output
device only when the name resolves and no default has been set yet. -/
def processModuleChild (m : HwModule) (acc : AudioPolicyConfig) (child : XmlNode) :
    AudioPolicyConfig :=
  let acc1 :=
    if child.name = "attachedDevices" then
      child.children.foldl (fun cfg item =>
        if item.name = "item" then
          match getDeviceFromTagName m.devicePorts item.text with
          | some d => cfg.addDevice d
          | none => cfg
        else cfg) acc
    else acc
  if child.name = "defaultOutputDevice" then
    match getDeviceFromTagName m.devicePorts child.text with
    | some d =>
      if acc1.defaultOutputDevice = none then { acc1 with defaultOutputDevice := some d }
      else acc1
    | none => acc1
  else acc1

/-- The module element's topology walk over all children. -/
def processModuleTopology (m : HwModule) (children : List XmlNode)
    (cfg : AudioPolicyConfig) : AudioPolicyConfig :=
  children.foldl (processModuleChild m) cfg

/-- The one-shot earpiece fix at the end of `ModuleTraits::deserialize`
(Serializer.cpp:983-989): if the mono-channel quirk marker is set, attach the
module's "Earpiece" device (when declared) to the config and clear the
marker. -/
def earpieceFixStep (m : HwModule) (cfg : AudioPolicyConfig) (st : LoadState) :
    AudioPolicyConfig × LoadState :=
  if st.fixedEarpieceChannels = true then
    let cfg1 := match getDeviceFromTagName m.devicePorts "Earpiece" with
      | some d => cfg.addDevice d
      | none => cfg
    (cfg1, { st with fixedEarpieceChannels := false })
  else (cfg, st)

/-- Loose `sscanf("%u.%u")` parse of the halVersion attribute: both components
default to 0. -/
def parseHalVersion (s : String) : Nat × Nat :=
  match splitOnChar '.' s with
  | [] => (0, 0)
  | [major] => ((parseNatFromString major).getD 0, 0)
  | major :: minor :: _ =>
    ((parseNatFromString major).getD 0, (parseNatFromString minor).getD 0)

/-- `ModuleTraits::deserialize` (Serializer.cpp:722-991): requires a non-empty
name; deserializes mix ports, device ports and routes in order, applying the
A2DP-offload-disable fixups to each stage, the Qualcomm BT-SCO route fixup,
the attached-devices / default-output-device topology walk and the earpiece
one-shot fix.  The config, load state and route-id allocator are threaded and
returned even on failure. -/
def ModuleTraits.deserialize (cur : XmlNode) (ctx : AudioPolicyConfig) (st : LoadState)
    (rid : Nat) : (Except StatusT HwModule) × AudioPolicyConfig × LoadState × Nat :=
  let name := getXmlAttribute cur "name"
  if name = "" then (.error .BAD_VALUE, ctx, st, rid)
  else
    let version := parseHalVersion (getXmlAttribute cur "halVersion")
    let isA2dpModule := name = "a2dp"
    let isPrimaryModule := name = "primary"
    match deserializeCollection "mixPorts" "mixPort" MixPortTraits.deserialize
        MixPortTraits.addElementToCollection cur.children [] st with
    | (.NO_ERROR, mixPorts0, st1) =>
      let ap := moduleApplyA2dpMixPorts isA2dpModule mixPorts0 st1
      let mixPorts1 := ap.1
      let st2 := ap.2
      match deserializeCollection "devicePorts" "devicePort" DevicePortTraits.deserialize
          DevicePortTraits.addElementToCollection cur.children [] st2 with
      | (.NO_ERROR, devicePorts0, st3) =>
        let devicePorts1 := moduleApplyA2dpDevicePorts isA2dpModule isPrimaryModule
          devicePorts0 st3
        let m0 : HwModule :=
          { name := name, halVersionMajor := version.1,
            halVersionMinor := version.2, mixPorts := mixPorts1,
            devicePorts := devicePorts1, routes := [] }
        match deserializeCollection "routes" "route" RouteTraits.deserialize
            RouteTraits.addElementToCollection cur.children [] (m0, rid) with
        | (.NO_ERROR, routes0, mr) =>
          let ar := moduleApplyA2dpRoutes name routes0 mr.1 mr.2 st3
          let fr := fixupQualcommBtScoRoute ar.1 (ar.2.1).devicePorts ar.2.1 ar.2.2
          let m1 := { fr.2.1 with routes := fr.1 }
          let ctx1 := processModuleTopology m1 cur.children ctx
          let es := earpieceFixStep m1 ctx1 st3
          (.ok m1, es.1, es.2, fr.2.2)
        | (.BAD_VALUE, _, mr) => (.error .BAD_VALUE, ctx, st3, mr.2)
      | (.BAD_VALUE, _, st3) => (.error .BAD_VALUE, ctx, st3, rid)
    | (.BAD_VALUE, _, st1) => (.error .BAD_VALUE, ctx, st1, rid)

/-- `GlobalConfigTraits::deserialize` (Serializer.cpp:993-1016): the first
"globalConfiguration" child sets the three optional settings (failed boolean
conversions keep the prior values); the walk always succeeds. -/
def GlobalConfigTraits.deserialize : List XmlNode → AudioPolicyConfig → AudioPolicyConfig
  | [], cfg => cfg
  | cur :: rest, cfg =>
    if cur.name = "globalConfiguration" then
      let a1 := getXmlAttribute cur "speaker_drc_enabled"
      let cfg1 := if a1 ≠ "" then
          match boolFromString a1 with
          | some b => { cfg with speakerDrcEnabled := b }
          | none => cfg
        else cfg
      let a2 := getXmlAttribute cur "call_screen_mode_supported"
      let cfg2 := if a2 ≠ "" then
          match boolFromString a2 with
          | some b => { cfg1 with callScreenModeSupported := b }
          | none => cfg1
        else cfg1
      let a3 := getXmlAttribute cur "engine_library"
      if a3 ≠ "" then { cfg2 with engineLibrarySuffix := a3 } else cfg2
    else GlobalConfigTraits.deserialize rest cfg

/-- Insert into a `std::set` of subformats, failing on a duplicate
(Serializer.cpp:1054-1059). -/
def insertSubformats : List Nat → List Nat → Except StatusT (List Nat)
  | acc, [] => .ok acc
  | acc, f :: fs =>
    if acc.contains f then .error .BAD_VALUE
    else insertSubformats (acc ++ [f]) fs

/-- `SurroundSoundFormatTraits::deserialize` (Serializer.cpp:1036-1062):
requires a recognized format name; space-separated subformats are set-inserted,
a duplicate failing the entity. -/
def SurroundSoundFormatTraits.deserialize (cur : XmlNode) (st : Unit) :
    (Except StatusT (Nat × List Nat)) × Unit :=
  let formatLiteral := getXmlAttribute cur "name"
  if formatLiteral = "" then (.error .BAD_VALUE, st)
  else
    let format := formatFromString formatLiteral gDynamicFormat
    if format = gDynamicFormat then (.error .BAD_VALUE, st)
    else
      let subformatsLiteral := getXmlAttribute cur "subformats"
      if subformatsLiteral = "" then (.ok (format, []), st)
      else
        match insertSubformats [] (formatsFromString subformatsLiteral ' ') with
        | .ok subs => (.ok (format, subs), st)
        | .error e => (.error e, st)

/-- `StdCollectionTraits` insertion for the surround-format map: a duplicate
format key is rejected. -/
def SurroundSoundFormatTraits.addElementToCollection (e : Nat × List Nat)
    (c : List (Nat × List Nat)) : Except StatusT (List (Nat × List Nat)) :=
  if c.any (fun p => p.1 = e.1) then .error .BAD_VALUE else .ok (c ++ [e])

/-- `SurroundSoundTraits::deserialize` (Serializer.cpp:1018-1034): installs the
built-in default table, then replaces it with the parsed table when the
"surroundSound" block is present and its collection deserializes cleanly. -/
def SurroundSoundTraits.deserialize (children : List XmlNode)
    (cfg : AudioPolicyConfig) : AudioPolicyConfig :=
  let cfg0 := { cfg with surroundFormatsUseDefault := true, surroundFormats := [] }
  match children.find? (fun cur => cur.name == "surroundSound") with
  | some cur =>
    match deserializeCollection "formats" "format" SurroundSoundFormatTraits.deserialize
        SurroundSoundFormatTraits.addElementToCollection cur.children [] () with
    | (.NO_ERROR, formats, _) =>
      { cfg0 with surroundFormatsUseDefault := false, surroundFormats := formats }
    | _ => cfg0
  | none => cfg0

/-- The module parse operation as driven by the modules collection walk: the
config, load state and route-id allocator travel as the walk's context. -/
def moduleParseForCollection (n : XmlNode) (acc : AudioPolicyConfig × LoadState × Nat) :
    (Except StatusT HwModule) × (AudioPolicyConfig × LoadState × Nat) :=
  let r := ModuleTraits.deserialize n acc.1 acc.2.1 acc.2.2
  (r.1, r.2.1, r.2.2.1, r.2.2.2)

/-- Modelled from the spec: modules carry no key within the config's module
collection; the collection add appends. -/
def ModuleTraits.addElementToCollection (e : HwModule) (c : List HwModule) :
    Except StatusT (List HwModule) :=
  .ok (c ++ [e])

def rootName : String := "audioPolicyConfiguration"
def gMajor : Nat := 1
def gMinor : Nat := 0

/-- The single supported version literal, built as in the constructor
(`std::to_string(gMajor) + "." + std::to_string(gMinor)`). -/
def mVersion : String := toString gMajor ++ "." ++ toString gMinor

/-- `PolicySerializer::deserialize` (Serializer.cpp:1064-1112): requires the
fixed root element name and an exact version-attribute match before any entity
is parsed; then deserializes the module collection, the global configuration
and the surround-sound table.  Returns the status together with the (possibly
partially mutated) config and load state. -/
def PolicySerializer.deserialize (root : XmlNode) (config : AudioPolicyConfig)
    (st : LoadState) : StatusT × AudioPolicyConfig × LoadState :=
  if root.name ≠ rootName then (.BAD_VALUE, config, st)
  else
    let version := getXmlAttribute root "version"
    if version = "" then (.BAD_VALUE, config, st)
    else if version ≠ mVersion then (.BAD_VALUE, config, st)
    else
      match deserializeCollection "modules" "module" moduleParseForCollection
          ModuleTraits.addElementToCollection root.children [] (config, st, 0) with
      | (.NO_ERROR, modules, acc) =>
        let cfg1 := { acc.1 with hwModules := modules }
        let cfg2 := GlobalConfigTraits.deserialize root.children cfg1
        let cfg3 := SurroundSoundTraits.deserialize root.children cfg2
        (.NO_ERROR, cfg3, acc.2.1)
      | (.BAD_VALUE, _, acc) => (.BAD_VALUE, acc.1, acc.2.1)

/-- `deserializeAudioPolicyFile` (Serializer.cpp:1116-1121): reads the
A2DP-offload-disable property once per load into the process-wide flag, then
runs the serializer (document loading and include expansion are outside the
embedding; the parsed root element is the input). -/
def deserializeAudioPolicyFile (propertyFlag : Bool) (root : XmlNode)
    (config : AudioPolicyConfig) (st : LoadState) : StatusT × AudioPolicyConfig × LoadState :=
  PolicySerializer.deserialize root config
    { st with forceDisableA2dpOffload := propertyFlag }

/-- A gain element with a valid mode, used to trace the index counter. -/
def gainNodeForIndexing : XmlNode :=
  .node "gain" [("mode", "AUDIO_GAIN_MODE_JOINT")] [] ""

/-- A load state with the given value of the gain index counter. -/
def mkLoadState (c : Nat) : LoadState :=
  { gainIndex := c, forceDisableA2dpOffload := false, fixedEarpieceChannels := false }

/-- The value of the static gain index counter after `n` gains have been
created since process start (the counter starts at 0 and each `deserialize`
advances it). -/
def gainCounterAfter : Nat → Nat
  | 0 => 0
  | n + 1 =>
    ((AudioGainTraits.deserialize gainNodeForIndexing
        (mkLoadState (gainCounterAfter n))).2).gainIndex

/-- The sequence index assigned to the `n`-th gain created since process start
(0-based). -/
def nthGainIndex (n : Nat) : Nat :=
  match (AudioGainTraits.deserialize gainNodeForIndexing
      (mkLoadState (gainCounterAfter n))).1 with
  | .ok g => g.index
  | .error _ => 0

/-! Shared concrete fixtures used by witnesses and counterexamples. -/

/-- An empty config, the state before a load. -/
def emptyConfig : AudioPolicyConfig :=
  { hwModules := [], availableDevices := [], defaultOutputDevice := none,
    speakerDrcEnabled := false, callScreenModeSupported := false,
    engineLibrarySuffix := "", surroundFormats := [], surroundFormatsUseDefault := false }

/-- The load state at process start. -/
def initialLoadState : LoadState := mkLoadState 0

/-! Helper lemmas about the modelled collection operations. -/

theorem sortAudioProfiles_sorted (ps : List AudioProfile) :
    (sortAudioProfiles ps).Sorted profileLE :=
  List.sorted_insertionSort profileLE ps

theorem sortAudioProfiles_length (ps : List AudioProfile) :
    (sortAudioProfiles ps).length = ps.length :=
  (List.perm_insertionSort profileLE ps).length_eq

theorem sortAudioProfiles_ne_nil (ps : List AudioProfile) (h : ps ≠ []) :
    sortAudioProfiles ps ≠ [] := by
  intro hc
  apply h
  have hl := sortAudioProfiles_length ps
  rw [hc] at hl
  exact List.length_eq_zero.mp hl.symm

theorem collectionInnerLoop_status_ok {σ ε γ : Type} (tag : String)
    (parse : XmlNode → σ → (Except StatusT ε) × σ)
    (insert : ε → γ → Except StatusT γ)
    (hins : ∀ e c, ∃ c', insert e c = .ok c') :
    ∀ (l : List XmlNode) (c : γ) (s : σ),
      (collectionInnerLoop tag parse insert l c s).1 = .NO_ERROR := by
  intro l
  induction l with
  | nil => intro c s; rfl
  | cons child rest ih =>
    intro c s
    by_cases hn : child.name = tag
    · rcases hp : parse child s with ⟨r, s'⟩
      cases r with
      | ok e =>
        obtain ⟨c', hc'⟩ := hins e c
        simp only [collectionInnerLoop, if_pos hn, hp, hc']
        exact ih c' s'
      | error err =>
        simp only [collectionInnerLoop, if_pos hn, hp]
        exact ih c s'
    · simp only [collectionInnerLoop, if_neg hn]
      exact ih c s

theorem deserializeCollection_status_ok {σ ε γ : Type} (collectionTag tag : String)
    (parse : XmlNode → σ → (Except StatusT ε) × σ)
    (insert : ε → γ → Except StatusT γ)
    (hins : ∀ e c, ∃ c', insert e c = .ok c') :
    ∀ (l : List XmlNode) (c : γ) (s : σ),
      (deserializeCollection collectionTag tag parse insert l c s).1 = .NO_ERROR := by
  intro l
  induction l with
  | nil => intro c s; rfl
  | cons cur rest ih =>
    intro c s
    rcases hr : collectionInnerLoop tag parse insert
        (if cur.name = collectionTag then cur.children
         else if cur.name = tag then cur :: rest else []) c s with ⟨s1, c1, s1'⟩
    have hs1 : s1 = .NO_ERROR := by
      have h1 := collectionInnerLoop_status_ok tag parse insert hins
        (if cur.name = collectionTag then cur.children
         else if cur.name = tag then cur :: rest else []) c s
      rw [hr] at h1
      exact h1
    subst hs1
    simp only [deserializeCollection, hr]
    by_cases ht : cur.name = tag
    · simp only [if_pos ht]
    · simp only [if_neg ht]
      exact ih c1 s1'

/-! Claim C2. -/

/-- C2: the top-level load returns `BAD_VALUE` with the config and load state
untouched (no partial result) whenever the root element name differs from the
fixed root tag or the version attribute is absent or differs from the single
supported "major.minor" literal; the result is independent of the document's
children, so in particular the version-mismatch rejection happens before any
module, global-settings or surround-format entity is parsed. -/
theorem c2_root_version_gate (nm : String) (attrs : List (String × String))
    (children : List XmlNode) (txt : String) (cfg : AudioPolicyConfig) (st : LoadState)
    (h : nm ≠ rootName ∨ getXmlAttribute (.node nm attrs children txt) "version" = "" ∨
      getXmlAttribute (.node nm attrs children txt) "version" ≠ mVersion) :
    PolicySerializer.deserialize (.node nm attrs children txt) cfg st =
      (.BAD_VALUE, cfg, st) := by
  by_cases hr : nm = rootName
  · subst hr
    by_cases hv : getXmlAttribute (.node rootName attrs children txt) "version" = ""
    · simp [PolicySerializer.deserialize, XmlNode.name, hv]
    · have hne : getXmlAttribute (.node rootName attrs children txt) "version" ≠ mVersion := by
        rcases h with h | h | h
        · exact absurd rfl h
        · exact absurd h hv
        · exact h
      simp [PolicySerializer.deserialize, XmlNode.name, hv, hne]
  · simp [PolicySerializer.deserialize, XmlNode.name, hr]

/-- A root element with the right root tag, a wrong version, and a module
child. -/
def c2BadVersionRoot : XmlNode :=
  .node "audioPolicyConfiguration" [("version", "2.0")]
    [.node "module" [("name", "m")] [] ""] ""

/-- Witness for C2 at a concrete document: version "2.0" is rejected outright
even though a module child is present. -/
theorem c2_root_version_gate_witness :
    PolicySerializer.deserialize c2BadVersionRoot emptyConfig initialLoadState =
      (.BAD_VALUE, emptyConfig, initialLoadState) :=
  c2_root_version_gate "audioPolicyConfiguration" [("version", "2.0")]
    [.node "module" [("name", "m")] [] ""] "" emptyConfig initialLoadState
    (Or.inr (Or.inr (by decide)))

/-! Claim C7. -/

theorem gain_deserialize_gainIndex (cur : XmlNode) (st : LoadState) :
    ((AudioGainTraits.deserialize cur st).2).gainIndex = (st.gainIndex + 1) % UINT32_MOD := by
  unfold AudioGainTraits.deserialize
  dsimp only
  split <;> split <;> rfl

theorem gain_node_ok (st : LoadState) :
    (AudioGainTraits.deserialize gainNodeForIndexing st).1 =
      .ok { index := st.gainIndex, mode := 1, channelMask := 0, minValueMB := 0,
            maxValueMB := 0, defaultValueMB := 0, stepValueMB := 0, minRampMs := 0,
            maxRampMs := 0, useForVolume := false } := rfl

theorem gainCounterAfter_eq (n : Nat) : gainCounterAfter n = n % UINT32_MOD := by
  induction n with
  | zero => rfl
  | succ n ih =>
    have h1 : (1 : Nat) % UINT32_MOD = 1 := Nat.mod_eq_of_lt (by norm_num [UINT32_MOD])
    show ((AudioGainTraits.deserialize gainNodeForIndexing
        (mkLoadState (gainCounterAfter n))).2).gainIndex = (n + 1) % UINT32_MOD
    rw [gain_deserialize_gainIndex]
    show (gainCounterAfter n + 1) % UINT32_MOD = (n + 1) % UINT32_MOD
    rw [ih]
    conv_rhs => rw [Nat.add_mod, h1]

theorem nthGainIndex_eq (n : Nat) : nthGainIndex n = n % UINT32_MOD := by
  unfold nthGainIndex
  rw [gain_node_ok]
  exact gainCounterAfter_eq n

/-- C7 (amended): gain sequence indices are the process-wide creation count
reduced mod 2^32 (the counter is a `uint32_t` that is never reset, also not
across loads); hence every gain receives an index strictly greater than every
gain created before it as long as fewer than 2^32 gains have been created
since process start. -/
theorem c7_gain_index_monotone_below_wrap (m n : Nat) (hmn : m < n) (hn : n < UINT32_MOD) :
    nthGainIndex m < nthGainIndex n := by
  rw [nthGainIndex_eq, nthGainIndex_eq, Nat.mod_eq_of_lt (lt_trans hmn hn),
    Nat.mod_eq_of_lt hn]
  exact hmn

/-- Witness for C7 at concrete creation ranks 0 and 1. -/
theorem c7_gain_index_monotone_below_wrap_witness :
    0 < 1 ∧ 1 < UINT32_MOD ∧ nthGainIndex 0 < nthGainIndex 1 :=
  ⟨by decide, by norm_num [UINT32_MOD],
   c7_gain_index_monotone_below_wrap 0 1 (by decide) (by norm_num [UINT32_MOD])⟩

/-- C7 counterexample: the gain created at rank 2^32 receives index 0, which is
not strictly greater than the index 1 of the gain created at rank 1, because
the shared `uint32_t` counter wraps around. -/
theorem c7_counterexample :
    1 < UINT32_MOD ∧ ¬ (nthGainIndex 1 < nthGainIndex UINT32_MOD) := by
  constructor
  · norm_num [UINT32_MOD]
  · rw [nthGainIndex_eq, nthGainIndex_eq, Nat.mod_self,
      Nat.mod_eq_of_lt (by norm_num [UINT32_MOD] : (1 : Nat) < UINT32_MOD)]
    decide

/-! Claim C8. -/

theorem mem_addDevice (cfg : AudioPolicyConfig) (d : DeviceDescriptor) :
    d ∈ (cfg.addDevice d).availableDevices := by
  unfold AudioPolicyConfig.addDevice
  split
  · next h => exact List.mem_of_elem_eq_true h
  · simp

/-- C8: parsing a device profile in an output-capable context whose resolved
channel-mask set is exactly the singleton input-mono mask yields a profile
with the singleton output-mono mask and records the fired marker; at module
end, with the marker fired, the device tagged "Earpiece" is attached to the
config when declared in the module, and the marker is cleared in either
case. -/
theorem c8_mono_profile_quirk_and_earpiece :
    (∀ (cur : XmlNode) (st : LoadState),
      channelMasksFromString (getXmlAttribute cur "channelMasks") = [AUDIO_CHANNEL_IN_MONO] →
      (AudioProfileTraits.deserialize true cur st).1.toOption.map AudioProfile.channelMasks
          = some [AUDIO_CHANNEL_OUT_MONO]
        ∧ ((AudioProfileTraits.deserialize true cur st).2).fixedEarpieceChannels = true)
    ∧ (∀ (m : HwModule) (cfg : AudioPolicyConfig) (st : LoadState),
      st.fixedEarpieceChannels = true →
      ((earpieceFixStep m cfg st).2).fixedEarpieceChannels = false
        ∧ ∀ d, getDeviceFromTagName m.devicePorts "Earpiece" = some d →
            d ∈ ((earpieceFixStep m cfg st).1).availableDevices) := by
  constructor
  · intro cur st h
    have hc : channelMasksFromString (getXmlAttribute cur "channelMasks")
        = [AUDIO_CHANNEL_IN_MONO] ∧ (true : Bool) = true := ⟨h, rfl⟩
    have hev : channelMasksFromString "AUDIO_CHANNEL_OUT_MONO" = [AUDIO_CHANNEL_OUT_MONO] := rfl
    constructor
    · unfold AudioProfileTraits.deserialize
      dsimp only
      simp [h, hev]
      exact ⟨_, rfl, rfl⟩
    · unfold AudioProfileTraits.deserialize
      dsimp only
      simp [h]
  · intro m cfg st h
    unfold earpieceFixStep
    rw [if_pos h]
    constructor
    · rfl
    · intro d hd
      dsimp only
      rw [hd]
      exact mem_addDevice cfg d

/-- A device profile element declaring the buggy input-mono channel mask. -/
def c8ProfileNode : XmlNode :=
  .node "profile" [("format", "AUDIO_FORMAT_PCM_16_BIT"),
    ("samplingRates", "48000"), ("channelMasks", "AUDIO_CHANNEL_IN_MONO")] [] ""

/-- An "Earpiece" device port as a module would declare it. -/
def c8EarpieceDev : DeviceDescriptor :=
  { tagName := "Earpiece", deviceType := AUDIO_DEVICE_OUT_EARPIECE, address := "",
    encodedFormats := [], profiles := [], gains := [], routes := [] }

/-- A module declaring the "Earpiece" device. -/
def c8Module : HwModule :=
  { name := "primary", halVersionMajor := 0, halVersionMinor := 0,
    mixPorts := [], devicePorts := [c8EarpieceDev], routes := [] }

/-- A load state in which the mono-channel quirk marker has fired. -/
def c8FiredState : LoadState :=
  { gainIndex := 0, forceDisableA2dpOffload := false, fixedEarpieceChannels := true }

/-- Witness for C8: the quirk fires on a concrete input-mono device profile,
and with the marker set the concrete module's "Earpiece" device is attached
and the marker cleared. -/
theorem c8_mono_profile_quirk_and_earpiece_witness :
    ((AudioProfileTraits.deserialize true c8ProfileNode initialLoadState).1.toOption.map
        AudioProfile.channelMasks = some [AUDIO_CHANNEL_OUT_MONO]
      ∧ ((AudioProfileTraits.deserialize true c8ProfileNode initialLoadState).2).fixedEarpieceChannels
          = true)
    ∧ (((earpieceFixStep c8Module emptyConfig c8FiredState).2).fixedEarpieceChannels
          = false
      ∧ c8EarpieceDev ∈
          ((earpieceFixStep c8Module emptyConfig c8FiredState).1).availableDevices) := by
  constructor
  · exact c8_mono_profile_quirk_and_earpiece.1 c8ProfileNode initialLoadState (by decide)
  · have h2 := c8_mono_profile_quirk_and_earpiece.2 c8Module emptyConfig
      c8FiredState rfl
    exact ⟨h2.1, h2.2 c8EarpieceDev rfl⟩

/-! Claim C10. -/

theorem profile_insert_ok (e : AudioProfile) (c : List AudioProfile) :
    ∃ c', AudioProfileTraits.addElementToCollection e c = .ok c' :=
  ⟨c ++ [e], rfl⟩

theorem gain_insert_ok (e : AudioGain) (c : List AudioGain) :
    ∃ c', AudioGainTraits.addElementToCollection e c = .ok c' :=
  ⟨c ++ [e], rfl⟩

/-- C10: the parsed port role is `source` exactly when the non-empty role
string equals "source"; any other non-empty role string is interpreted as
`sink`, and the role string's content never causes the port entity to be
rejected: a mix port with non-empty name and role always parses, and replacing
an arbitrary non-source role string by "sink" leaves both the mix-port and the
device-port deserializers' results unchanged. -/
theorem c10_role_parsing :
    (∀ role : String, role ≠ "" → (portRoleFromString role = .source ↔ role = "source"))
    ∧ (∀ (child : XmlNode) (st : LoadState),
        getXmlAttribute child "name" ≠ "" → getXmlAttribute child "role" ≠ "" →
        ((MixPortTraits.deserialize child st).1).toOption.map IOProfile.role
          = some (portRoleFromString (getXmlAttribute child "role")))
    ∧ (∀ (c1 c2 : XmlNode) (st : LoadState),
        c1.children = c2.children →
        (∀ a, a ≠ "role" → getXmlAttribute c1 a = getXmlAttribute c2 a) →
        getXmlAttribute c1 "role" ≠ "" → getXmlAttribute c1 "role" ≠ "source" →
        getXmlAttribute c2 "role" = "sink" →
        MixPortTraits.deserialize c1 st = MixPortTraits.deserialize c2 st
          ∧ DevicePortTraits.deserialize c1 st = DevicePortTraits.deserialize c2 st) := by
  refine ⟨?_, ?_, ?_⟩
  · intro role _
    unfold portRoleFromString
    by_cases h : role = "source"
    · simp [h]
    · simp [h]
  · intro child st hname hrole
    unfold MixPortTraits.deserialize
    dsimp only
    rw [if_neg hname, if_neg hrole]
    rcases hw : deserializeCollection "profiles" "profile"
        (AudioProfileTraits.deserialize false) AudioProfileTraits.addElementToCollection
        child.children [] st with ⟨s1, profs, st1⟩
    have hs1 : s1 = .NO_ERROR := by
      have := deserializeCollection_status_ok "profiles" "profile"
        (AudioProfileTraits.deserialize false) AudioProfileTraits.addElementToCollection
        profile_insert_ok child.children [] st
      rw [hw] at this
      exact this
    subst hs1
    dsimp only
    rcases hg : deserializeCollection "gains" "gain" AudioGainTraits.deserialize
        AudioGainTraits.addElementToCollection child.children [] st1 with ⟨s2, gains, st2⟩
    have hs2 : s2 = .NO_ERROR := by
      have := deserializeCollection_status_ok "gains" "gain" AudioGainTraits.deserialize
        AudioGainTraits.addElementToCollection gain_insert_ok child.children [] st1
      rw [hg] at this
      exact this
    subst hs2
    rfl
  · intro c1 c2 st hch hattr hr1ne hr1src hr2
    have hrole2ne : getXmlAttribute c2 "role" ≠ "" := by
      rw [hr2]
      decide
    have hrole : portRoleFromString (getXmlAttribute c1 "role")
        = portRoleFromString (getXmlAttribute c2 "role") := by
      unfold portRoleFromString
      rw [hr2, if_neg hr1src, if_neg (by decide : ¬ ("sink" : String) = "source")]
    constructor
    · unfold MixPortTraits.deserialize
      dsimp only
      rw [hattr "name" (by decide), hch, hattr "flags" (by decide),
        hattr "maxOpenCount" (by decide), hattr "maxActiveCount" (by decide),
        if_neg hr1ne, if_neg hrole2ne, hrole]
    · unfold DevicePortTraits.deserialize
      dsimp only
      rw [hattr "tagName" (by decide), hattr "type" (by decide), hch,
        hattr "encodedFormats" (by decide), hattr "address" (by decide),
        if_neg hr1ne, if_neg hrole2ne, hrole]

/-- A mix/device port element with a role string outside the source|sink
vocabulary. -/
def c10WeirdRoleNode : XmlNode :=
  .node "mixPort" [("name", "p"), ("role", "bizarre")] [] ""

/-- The same element with role "sink". -/
def c10SinkRoleNode : XmlNode :=
  .node "mixPort" [("name", "p"), ("role", "sink")] [] ""

/-- Witness for C10 at a concrete out-of-vocabulary role string. -/
theorem c10_role_parsing_witness :
    (portRoleFromString "bizarre" = .source ↔ ("bizarre" : String) = "source")
    ∧ ((MixPortTraits.deserialize c10WeirdRoleNode initialLoadState).1).toOption.map
        IOProfile.role = some (portRoleFromString (getXmlAttribute c10WeirdRoleNode "role"))
    ∧ MixPortTraits.deserialize c10WeirdRoleNode initialLoadState
        = MixPortTraits.deserialize c10SinkRoleNode initialLoadState
    ∧ DevicePortTraits.deserialize c10WeirdRoleNode initialLoadState
        = DevicePortTraits.deserialize c10SinkRoleNode initialLoadState := by
  have hattr : ∀ a, a ≠ "role" →
      getXmlAttribute c10WeirdRoleNode a = getXmlAttribute c10SinkRoleNode a := by
    intro a ha
    unfold getXmlAttribute c10WeirdRoleNode c10SinkRoleNode
    dsimp only [XmlNode.attrs]
    by_cases h : a = "name"
    · subst h
      rfl
    · have h1 : (a == "name") = false := by simpa using h
      have h2 : (a == "role") = false := by simpa using ha
      simp [List.lookup, h1, h2]
  have hsub := c10_role_parsing.2.2 c10WeirdRoleNode c10SinkRoleNode initialLoadState rfl
    hattr (by decide) (by decide) (by decide)
  exact ⟨c10_role_parsing.1 "bizarre" (by decide),
    c10_role_parsing.2.1 c10WeirdRoleNode initialLoadState (by decide) (by decide),
    hsub.1, hsub.2⟩

/-! Claim C4. -/

theorem sortAudioProfiles_singleton (p : AudioProfile) :
    sortAudioProfiles [p] = [p] := rfl

/-- C4: every successfully parsed mix port or device port has a non-empty
profile list sorted by format, and when the declared profile collection is
empty the list is exactly the one synthetic fully-dynamic profile. -/
theorem c4_port_profiles_nonempty_sorted :
    (∀ (child : XmlNode) (st : LoadState) (p : IOProfile),
      (MixPortTraits.deserialize child st).1 = .ok p →
      p.profiles ≠ [] ∧ p.profiles.Sorted profileLE
        ∧ ((deserializeCollection "profiles" "profile" (AudioProfileTraits.deserialize false)
            AudioProfileTraits.addElementToCollection child.children [] st).2.1 = [] →
          p.profiles = [AudioProfile.createFullDynamic]))
    ∧ (∀ (cur : XmlNode) (st : LoadState) (d : DeviceDescriptor),
      (DevicePortTraits.deserialize cur st).1 = .ok d →
      d.profiles ≠ [] ∧ d.profiles.Sorted profileLE
        ∧ (∀ ty, deviceFromString (getXmlAttribute cur "type") = some ty →
          ((deserializeCollection "profiles" "profile"
              (AudioProfileTraits.deserialize (audio_is_output_devices ty))
              AudioProfileTraits.addElementToCollection cur.children [] st).2.1 = [] →
            d.profiles = [AudioProfile.createFullDynamic]))) := by
  constructor
  · intro child st p hok
    unfold MixPortTraits.deserialize at hok
    dsimp only at hok
    by_cases hn : getXmlAttribute child "name" = ""
    · rw [if_pos hn] at hok
      simp at hok
    rw [if_neg hn] at hok
    by_cases hr : getXmlAttribute child "role" = ""
    · rw [if_pos hr] at hok
      simp at hok
    rw [if_neg hr] at hok
    rcases hw : deserializeCollection "profiles" "profile"
        (AudioProfileTraits.deserialize false) AudioProfileTraits.addElementToCollection
        child.children [] st with ⟨s1, profs, st1⟩
    rw [hw] at hok
    cases s1 with
    | BAD_VALUE => simp at hok
    | NO_ERROR =>
      dsimp only at hok
      rcases hg : deserializeCollection "gains" "gain" AudioGainTraits.deserialize
          AudioGainTraits.addElementToCollection child.children [] st1 with ⟨s2, gains, st2⟩
      rw [hg] at hok
      cases s2 with
      | BAD_VALUE => simp at hok
      | NO_ERROR =>
        dsimp only at hok
        injection hok with hp
        subst hp
        dsimp only
        refine ⟨?_, sortAudioProfiles_sorted _, ?_⟩
        · apply sortAudioProfiles_ne_nil
          intro hc
          by_cases he : profs.isEmpty = true
          · rw [if_pos he] at hc
            exact List.noConfusion hc
          · rw [if_neg he] at hc
            rw [hc] at he
            exact he rfl
        · intro hemp
          have : profs = [] := hemp
          subst this
          rfl
  · intro cur st d hok
    unfold DevicePortTraits.deserialize at hok
    dsimp only at hok
    by_cases hn : getXmlAttribute cur "tagName" = ""
    · rw [if_pos hn] at hok
      simp at hok
    rw [if_neg hn] at hok
    by_cases ht : getXmlAttribute cur "type" = ""
    · rw [if_pos ht] at hok
      simp at hok
    rw [if_neg ht] at hok
    by_cases hr : getXmlAttribute cur "role" = ""
    · rw [if_pos hr] at hok
      simp at hok
    rw [if_neg hr] at hok
    rcases hd : deviceFromString (getXmlAttribute cur "type") with _ | ty
    · rw [hd] at hok
      simp at hok
    rw [hd] at hok
    dsimp only at hok
    by_cases hcompat : (audio_is_input_device ty = false
        ∧ portRoleFromString (getXmlAttribute cur "role") = .source)
      ∨ (audio_is_output_devices ty = false
        ∧ portRoleFromString (getXmlAttribute cur "role") = .sink)
    · rw [if_pos hcompat] at hok
      simp at hok
    rw [if_neg hcompat] at hok
    rcases hw : deserializeCollection "profiles" "profile"
        (AudioProfileTraits.deserialize (audio_is_output_devices ty))
        AudioProfileTraits.addElementToCollection cur.children [] st with ⟨s1, profs, st1⟩
    rw [hw] at hok
    cases s1 with
    | BAD_VALUE => simp at hok
    | NO_ERROR =>
      dsimp only at hok
      rcases hg : deserializeCollection "gains" "gain" AudioGainTraits.deserialize
          AudioGainTraits.addElementToCollection cur.children [] st1 with ⟨s2, gains, st2⟩
      rw [hg] at hok
      cases s2 with
      | BAD_VALUE => simp at hok
      | NO_ERROR =>
        dsimp only at hok
        injection hok with hp
        subst hp
        dsimp only
        refine ⟨?_, sortAudioProfiles_sorted _, ?_⟩
        · apply sortAudioProfiles_ne_nil
          intro hc
          by_cases he : profs.isEmpty = true
          · rw [if_pos he] at hc
            exact List.noConfusion hc
          · rw [if_neg he] at hc
            rw [hc] at he
            exact he rfl
        · intro ty' hty' hemp
          have hty : ty' = ty := by
            injection hty' with h
            exact h.symm
          subst hty
          have : profs = [] := by
            rw [hw] at hemp
            exact hemp
          subst this
          rfl

/-- A mix port declaring no profiles. -/
def c4MixPortNode : XmlNode :=
  .node "mixPort" [("name", "primary output"), ("role", "source")] [] ""

/-- Witness for C4 at a concrete profile-less mix port: the parsed port's
profile list is the singleton fully-dynamic profile, non-empty and sorted. -/
theorem c4_port_profiles_nonempty_sorted_witness :
    ∃ p, (MixPortTraits.deserialize c4MixPortNode initialLoadState).1 = .ok p
      ∧ p.profiles ≠ [] ∧ p.profiles.Sorted profileLE
      ∧ p.profiles = [AudioProfile.createFullDynamic] := by
  have hok : (MixPortTraits.deserialize c4MixPortNode initialLoadState).1 =
      .ok { name := "primary output", role := .source,
            profiles := [AudioProfile.createFullDynamic], gains := [], flags := none,
            maxOpenCount := 1, maxActiveCount := 1, routes := [] } := rfl
  have h := c4_port_profiles_nonempty_sorted.1 c4MixPortNode initialLoadState _ hok
  exact ⟨_, hok, h.1, h.2.1, h.2.2 rfl⟩

/-! Claim C1. -/

/-- A module element declaring two mix ports with the same tag name "p". -/
def c1DupModuleNode : XmlNode :=
  .node "module" [("name", "m1")]
    [.node "mixPort" [("name", "p"), ("role", "source")] [] "",
     .node "mixPort" [("name", "p"), ("role", "sink")] [] ""] ""

/-- A well-formed sibling module. -/
def c1GoodModuleNode : XmlNode :=
  .node "module" [("name", "m2")]
    [.node "mixPort" [("name", "q"), ("role", "source")] [] ""] ""

/-- C1 counterexample: a module declaring two ports with the same tag name
does not load; its deserialization returns `BAD_VALUE` (the claim asserts the
module loads successfully with the first port retained). -/
theorem c1_counterexample :
    (ModuleTraits.deserialize c1DupModuleNode emptyConfig initialLoadState 0).1
      = .error .BAD_VALUE := rfl

/-- C1 (amended): a parsed entity whose insertion fails aborts the enclosing
collection walk with the insertion status, retaining the entries inserted
before the failure and not processing later entries; an entity whose parse
fails is skipped and the walk continues.  Concretely, a module declaring two
ports with tag name "p" has its mix-port collection abort with `BAD_VALUE`
after retaining the first port, the module itself fails to deserialize, and
the enclosing modules collection skips the failed module and succeeds with the
remaining module. -/
theorem c1_insert_failure_aborts_collection :
    (∀ (σ ε γ : Type) (tag : String)
      (parse : XmlNode → σ → (Except StatusT ε) × σ)
      (insert : ε → γ → Except StatusT γ)
      (n : XmlNode) (rest : List XmlNode) (c : γ) (s : σ) (e : ε) (s' : σ) (stv : StatusT),
      n.name = tag → parse n s = (.ok e, s') → insert e c = .error stv →
      collectionInnerLoop tag parse insert (n :: rest) c s = (stv, c, s'))
    ∧ (∀ (σ ε γ : Type) (tag : String)
      (parse : XmlNode → σ → (Except StatusT ε) × σ)
      (insert : ε → γ → Except StatusT γ)
      (n : XmlNode) (rest : List XmlNode) (c : γ) (s : σ) (err : StatusT) (s' : σ),
      n.name = tag → parse n s = (.error err, s') →
      collectionInnerLoop tag parse insert (n :: rest) c s
        = collectionInnerLoop tag parse insert rest c s')
    ∧ ((deserializeCollection "mixPorts" "mixPort" MixPortTraits.deserialize
        MixPortTraits.addElementToCollection c1DupModuleNode.children [] initialLoadState).1
          = .BAD_VALUE
      ∧ ((deserializeCollection "mixPorts" "mixPort" MixPortTraits.deserialize
          MixPortTraits.addElementToCollection c1DupModuleNode.children []
          initialLoadState).2.1).map IOProfile.name = ["p"])
    ∧ (ModuleTraits.deserialize c1DupModuleNode emptyConfig initialLoadState 0).1
        = .error .BAD_VALUE
    ∧ ((deserializeCollection "modules" "module" moduleParseForCollection
        ModuleTraits.addElementToCollection [c1DupModuleNode, c1GoodModuleNode] []
        (emptyConfig, initialLoadState, 0)).1 = .NO_ERROR
      ∧ (((deserializeCollection "modules" "module" moduleParseForCollection
          ModuleTraits.addElementToCollection [c1DupModuleNode, c1GoodModuleNode] []
          (emptyConfig, initialLoadState, 0)).2.1).map HwModule.name = ["m2"])) := by
  refine ⟨?_, ?_, ⟨rfl, rfl⟩, rfl, rfl, rfl⟩
  · intro σ ε γ tag parse insert n rest c s e s' stv hname hp hi
    simp only [collectionInnerLoop, if_pos hname, hp, hi]
  · intro σ ε γ tag parse insert n rest c s err s' hname hp
    simp only [collectionInnerLoop, if_pos hname, hp]

/-- Witness for C1's amended theorem at a concrete instantiation: an insert
operation that rejects the entity makes the walk return its status with the
collection unchanged. -/
theorem c1_insert_failure_aborts_collection_witness :
    collectionInnerLoop "t" (fun _ (s : Nat) => (Except.ok (0 : Nat), s))
      (fun (_ : Nat) (_ : List Nat) => Except.error StatusT.BAD_VALUE)
      [.node "t" [] [] ""] ([] : List Nat) 0 = (.BAD_VALUE, [], 0) :=
  c1_insert_failure_aborts_collection.1 Nat Nat (List Nat) "t"
    (fun _ (s : Nat) => (Except.ok (0 : Nat), s))
    (fun (_ : Nat) (_ : List Nat) => Except.error StatusT.BAD_VALUE)
    (.node "t" [] [] "") [] [] 0 0 0 .BAD_VALUE rfl rfl rfl

/-! Claim C3. -/

theorem findPort_eq_self (m : HwModule) (t p : String)
    (h : m.findPortByTagName t = some p) : p = t := by
  unfold HwModule.findPortByTagName at h
  split at h
  · injection h with h
    exact h.symm
  · split at h
    · injection h with h
      exact h.symm
    · exact Option.noConfusion h

theorem any_updateFirst {α : Type} (p q : α → Bool) (f : α → α)
    (hf : ∀ x, q (f x) = q x) : ∀ l : List α, (updateFirst p f l).any q = l.any q := by
  intro l
  induction l with
  | nil => rfl
  | cons x xs ih =>
    unfold updateFirst
    by_cases hp : p x
    · rw [if_pos hp]
      simp [List.any_cons, hf]
    · rw [if_neg hp]
      simp [List.any_cons, ih]

theorem find?_updateFirst_self {α : Type} (q : α → Bool) (f : α → α)
    (hf : ∀ x, q (f x) = q x) : ∀ l : List α,
    (updateFirst q f l).find? q = (l.find? q).map f := by
  intro l
  induction l with
  | nil => rfl
  | cons x xs ih =>
    unfold updateFirst
    by_cases hq : q x
    · rw [if_pos hq, List.find?_cons_of_pos _ (by rw [hf]; exact hq),
        List.find?_cons_of_pos _ hq]
      rfl
    · rw [if_neg hq, List.find?_cons_of_neg _ hq, List.find?_cons_of_neg _ hq, ih]

theorem find?_updateFirst_disjoint {α : Type} (p q : α → Bool) (f : α → α)
    (hf : ∀ x, q (f x) = q x) (hdisj : ∀ x, p x = true → q x = false) :
    ∀ l : List α, (updateFirst p f l).find? q = l.find? q := by
  intro l
  induction l with
  | nil => rfl
  | cons x xs ih =>
    unfold updateFirst
    by_cases hp : p x
    · have hq : q x = false := hdisj x hp
      rw [if_pos hp, List.find?_cons_of_neg _ (by rw [hf]; simp [hq]),
        List.find?_cons_of_neg _ (by simp [hq])]
    · by_cases hq : q x
      · rw [if_neg hp, List.find?_cons_of_pos _ hq, List.find?_cons_of_pos _ hq]
      · rw [if_neg hp, List.find?_cons_of_neg _ hq, List.find?_cons_of_neg _ hq, ih]

theorem mixAny_update (t' t : String) (rid : Nat) (l : List IOProfile) :
    ((updateFirst (fun p => p.name = t')
        (fun p => { p with routes := p.routes ++ [rid] }) l).any (fun p => p.name = t))
      = l.any (fun p => p.name = t) :=
  any_updateFirst (fun p => p.name = t') (fun p => p.name = t)
    (fun p => { p with routes := p.routes ++ [rid] }) (fun _ => rfl) l

theorem devAny_update (t' t : String) (rid : Nat) (l : List DeviceDescriptor) :
    ((updateFirst (fun d => d.tagName = t')
        (fun d => { d with routes := d.routes ++ [rid] }) l).any (fun d => d.tagName = t))
      = l.any (fun d => d.tagName = t) :=
  any_updateFirst (fun d => d.tagName = t') (fun d => d.tagName = t)
    (fun d => { d with routes := d.routes ++ [rid] }) (fun _ => rfl) l

theorem mixFind_update_self (t : String) (rid : Nat) (l : List IOProfile) :
    (updateFirst (fun p => p.name = t)
        (fun p => { p with routes := p.routes ++ [rid] }) l).find? (fun p => p.name = t)
      = (l.find? (fun p => p.name = t)).map
          (fun p => { p with routes := p.routes ++ [rid] }) :=
  find?_updateFirst_self (fun p => p.name = t)
    (fun p => { p with routes := p.routes ++ [rid] }) (fun _ => rfl) l

theorem devFind_update_self (t : String) (rid : Nat) (l : List DeviceDescriptor) :
    (updateFirst (fun d => d.tagName = t)
        (fun d => { d with routes := d.routes ++ [rid] }) l).find? (fun d => d.tagName = t)
      = (l.find? (fun d => d.tagName = t)).map
          (fun d => { d with routes := d.routes ++ [rid] }) :=
  find?_updateFirst_self (fun d => d.tagName = t)
    (fun d => { d with routes := d.routes ++ [rid] }) (fun _ => rfl) l

theorem mixFind_update_disjoint (t' t : String) (rid : Nat) (l : List IOProfile)
    (hne : t ≠ t') :
    (updateFirst (fun p => p.name = t')
        (fun p => { p with routes := p.routes ++ [rid] }) l).find? (fun p => p.name = t)
      = l.find? (fun p => p.name = t) :=
  find?_updateFirst_disjoint (fun p => p.name = t') (fun p => p.name = t)
    (fun p => { p with routes := p.routes ++ [rid] }) (fun _ => rfl)
    (fun x hx => by
      have h1 : x.name = t' := of_decide_eq_true hx
      exact decide_eq_false (fun h2 => hne (h2 ▸ h1))) l

theorem devFind_update_disjoint (t' t : String) (rid : Nat) (l : List DeviceDescriptor)
    (hne : t ≠ t') :
    (updateFirst (fun d => d.tagName = t')
        (fun d => { d with routes := d.routes ++ [rid] }) l).find? (fun d => d.tagName = t)
      = l.find? (fun d => d.tagName = t) :=
  find?_updateFirst_disjoint (fun d => d.tagName = t') (fun d => d.tagName = t)
    (fun d => { d with routes := d.routes ++ [rid] }) (fun _ => rfl)
    (fun x hx => by
      have h1 : x.tagName = t' := of_decide_eq_true hx
      exact decide_eq_false (fun h2 => hne (h2 ▸ h1))) l

theorem findPort_addRouteToPort (m : HwModule) (t' : String) (rid : Nat) (t : String) :
    (m.addRouteToPort t' rid).findPortByTagName t = m.findPortByTagName t := by
  unfold HwModule.addRouteToPort
  split
  · unfold HwModule.findPortByTagName
    dsimp only
    rw [mixAny_update]
  · unfold HwModule.findPortByTagName
    dsimp only
    rw [devAny_update]

theorem portRouteIds_of_findPort_none (m : HwModule) (t : String)
    (h : m.findPortByTagName t = none) : m.portRouteIds t = [] := by
  unfold HwModule.findPortByTagName at h
  unfold HwModule.portRouteIds
  by_cases hmix : m.mixPorts.any (fun p => p.name = t)
  · rw [if_pos hmix] at h
    exact Option.noConfusion h
  · rw [if_neg hmix] at h
    rw [if_neg hmix]
    by_cases hdev : m.devicePorts.any (fun d => d.tagName = t)
    · rw [if_pos hdev] at h
      exact Option.noConfusion h
    · have hnone : m.devicePorts.find? (fun d => d.tagName = t) = none := by
        rw [List.find?_eq_none]
        intro x hx hqx
        exact hdev (List.any_eq_true.mpr ⟨x, hx, hqx⟩)
      rw [hnone]

theorem portRouteIds_addRouteToPort_self (m : HwModule) (t : String) (rid : Nat)
    (h : (m.findPortByTagName t).isSome) :
    (m.addRouteToPort t rid).portRouteIds t = m.portRouteIds t ++ [rid] := by
  unfold HwModule.addRouteToPort HwModule.portRouteIds
  by_cases hmix : m.mixPorts.any (fun p => p.name = t)
  · rw [if_pos hmix]
    dsimp only
    rw [if_pos (by rw [mixAny_update]; exact hmix), if_pos hmix, mixFind_update_self]
    obtain ⟨x, hx, hqx⟩ := List.any_eq_true.mp hmix
    obtain ⟨y, hy⟩ := Option.isSome_iff_exists.mp
      (show (m.mixPorts.find? (fun p => p.name = t)).isSome from
        List.find?_isSome.mpr ⟨x, hx, hqx⟩)
    rw [hy]
    rfl
  · rw [if_neg hmix]
    dsimp only
    have hdev : m.devicePorts.any (fun d => d.tagName = t) := by
      unfold HwModule.findPortByTagName at h
      rw [if_neg hmix] at h
      by_cases hd : m.devicePorts.any (fun d => d.tagName = t)
      · exact hd
      · rw [if_neg hd] at h
        exact Bool.noConfusion h
    rw [if_neg hmix, if_neg hmix, devFind_update_self]
    obtain ⟨x, hx, hqx⟩ := List.any_eq_true.mp hdev
    obtain ⟨y, hy⟩ := Option.isSome_iff_exists.mp
      (show (m.devicePorts.find? (fun d => d.tagName = t)).isSome from
        List.find?_isSome.mpr ⟨x, hx, hqx⟩)
    rw [hy]
    rfl

theorem portRouteIds_addRouteToPort_other (m : HwModule) (t' : String) (rid : Nat)
    (t : String) (hne : t ≠ t') :
    (m.addRouteToPort t' rid).portRouteIds t = m.portRouteIds t := by
  unfold HwModule.addRouteToPort HwModule.portRouteIds
  by_cases hmix' : m.mixPorts.any (fun p => p.name = t')
  · rw [if_pos hmix']
    dsimp only
    rw [mixAny_update]
    by_cases hmix : m.mixPorts.any (fun p => p.name = t)
    · rw [if_pos hmix, if_pos hmix, mixFind_update_disjoint t' t rid _ hne]
    · rw [if_neg hmix, if_neg hmix]
  · rw [if_neg hmix']
    dsimp only
    by_cases hmix : m.mixPorts.any (fun p => p.name = t)
    · rw [if_pos hmix, if_pos hmix]
    · rw [if_neg hmix, if_neg hmix, devFind_update_disjoint t' t rid _ hne]

theorem mem_portRouteIds_addRouteToPort (m : HwModule) (t' : String) (rid' : Nat)
    (t : String) (rid : Nat) (h : rid ∈ m.portRouteIds t) :
    rid ∈ (m.addRouteToPort t' rid').portRouteIds t := by
  by_cases hne : t = t'
  · subst hne
    by_cases hs : (m.findPortByTagName t).isSome
    · rw [portRouteIds_addRouteToPort_self m t rid' hs]
      exact List.mem_append_left _ h
    · have hnone : m.findPortByTagName t = none := by
        cases hfp : m.findPortByTagName t with
        | none => rfl
        | some v =>
          rw [hfp] at hs
          exact absurd rfl hs
      rw [portRouteIds_of_findPort_none m t hnone] at h
      exact absurd h (List.not_mem_nil rid)
  · rw [portRouteIds_addRouteToPort_other m t' rid' t hne]
    exact h

theorem mem_portRouteIds_foldl (rid' : Nat) :
    ∀ (l : List String) (m : HwModule) (t : String) (rid : Nat),
    rid ∈ m.portRouteIds t →
    rid ∈ (l.foldl (fun mm s => mm.addRouteToPort s rid') m).portRouteIds t := by
  intro l
  induction l with
  | nil =>
    intro m t rid h
    exact h
  | cons x xs ih =>
    intro m t rid h
    exact ih _ _ _ (mem_portRouteIds_addRouteToPort m x rid' t rid h)

theorem foldl_addRoute_mem_of_elem (rid : Nat) :
    ∀ (l : List String) (m : HwModule) (t : String), t ∈ l →
    (m.findPortByTagName t).isSome →
    rid ∈ (l.foldl (fun mm s => mm.addRouteToPort s rid) m).portRouteIds t := by
  intro l
  induction l with
  | nil =>
    intro m t ht _
    exact absurd ht (List.not_mem_nil t)
  | cons x xs ih =>
    intro m t ht hsome
    rcases List.mem_cons.mp ht with he | hmem
    · subst he
      show rid ∈ (xs.foldl (fun mm s => mm.addRouteToPort s rid)
        (m.addRouteToPort t rid)).portRouteIds t
      apply mem_portRouteIds_foldl
      rw [portRouteIds_addRouteToPort_self m t rid hsome]
      exact List.mem_append_right _ (List.mem_singleton.mpr rfl)
    · show rid ∈ (xs.foldl (fun mm s => mm.addRouteToPort s rid)
        (m.addRouteToPort x rid)).portRouteIds t
      apply ih
      · exact hmem
      · rw [findPort_addRouteToPort]
        exact hsome

/-- C3: a route whose sink tag does not resolve among the module's registered
ports fails and leaves the module untouched; with a resolving sink, the route
is accepted regardless of how many source tokens resolve (zero included),
every retained source is a port of the module, every source token that
resolves — directly or after trimming — is retained (so only the unresolved
tokens are omitted), and the sink and every retained source carry a back-link
to the new route. -/
theorem c3_route_sink_sources_backlinks :
    (∀ (cur : XmlNode) (m : HwModule) (rid : Nat),
      m.findPortByTagName (getXmlAttribute cur "sink") = none →
      (RouteTraits.deserialize cur (m, rid)).1 = .error .BAD_VALUE
        ∧ ((RouteTraits.deserialize cur (m, rid)).2).1 = m)
    ∧ (∀ (cur : XmlNode) (m : HwModule) (rid : Nat),
      getXmlAttribute cur "type" ≠ "" →
      getXmlAttribute cur "sink" ≠ "" →
      (m.findPortByTagName (getXmlAttribute cur "sink")).isSome →
      getXmlAttribute cur "sources" ≠ "" →
      ∃ r m', RouteTraits.deserialize cur (m, rid) = (.ok r, (m', rid + 1))
        ∧ r.rid = rid
        ∧ r.sink = getXmlAttribute cur "sink"
        ∧ (∀ s ∈ r.sources, m.findPortByTagName s = some s)
        ∧ r.rid ∈ m'.portRouteIds r.sink
        ∧ (∀ s ∈ r.sources, r.rid ∈ m'.portRouteIds s)
        ∧ (∀ devTag ∈ (splitOnChar ',' (getXmlAttribute cur "sources")).filter
              (fun tok => tok ≠ ""),
            m.findPortByTagName devTag = some devTag → devTag ∈ r.sources)
        ∧ (∀ devTag ∈ (splitOnChar ',' (getXmlAttribute cur "sources")).filter
              (fun tok => tok ≠ ""),
            m.findPortByTagName devTag = none →
            m.findPortByTagName (trim devTag) = some (trim devTag) →
            trim devTag ∈ r.sources)) := by
  constructor
  · intro cur m rid hnone
    unfold RouteTraits.deserialize
    dsimp only
    by_cases htype : getXmlAttribute cur "type" = ""
    · rw [if_pos htype]
      exact ⟨rfl, rfl⟩
    rw [if_neg htype]
    by_cases hsink : getXmlAttribute cur "sink" = ""
    · rw [if_pos hsink]
      exact ⟨rfl, rfl⟩
    rw [if_neg hsink, hnone]
    exact ⟨rfl, rfl⟩
  · intro cur m rid htype hsinkne hsome hsrcne
    obtain ⟨sp, hsp⟩ := Option.isSome_iff_exists.mp hsome
    have hspt : sp = getXmlAttribute cur "sink" := findPort_eq_self m _ sp hsp
    unfold RouteTraits.deserialize
    dsimp only
    rw [if_neg htype, if_neg hsinkne, hsp]
    dsimp only
    rw [if_neg hsrcne]
    refine ⟨_, _, rfl, rfl, rfl, ?_, ?_, ?_, ?_, ?_⟩
    · intro s hs
      obtain ⟨devTag, hmem, hres⟩ := List.mem_filterMap.mp hs
      rcases hh : m.findPortByTagName devTag with _ | p
      · rw [hh] at hres
        dsimp only at hres
        have heq := findPort_eq_self m (trim devTag) s hres
        rw [heq] at hres
        rw [heq]
        exact hres
      · rw [hh] at hres
        dsimp only at hres
        injection hres with hres
        subst hres
        have heq := findPort_eq_self m devTag p hh
        rw [heq] at hh
        rw [heq]
        exact hh
    · dsimp only
      apply mem_portRouteIds_foldl
      rw [portRouteIds_addRouteToPort_self m _ rid hsome]
      exact List.mem_append_right _ (List.mem_singleton.mpr rfl)
    · intro s hs
      dsimp only at hs
      obtain ⟨devTag, hmem, hres⟩ := List.mem_filterMap.mp hs
      have hfs : m.findPortByTagName s = some s := by
        rcases hh : m.findPortByTagName devTag with _ | p
        · rw [hh] at hres
          dsimp only at hres
          have heq := findPort_eq_self m (trim devTag) s hres
          rw [heq] at hres
          rw [heq]
          exact hres
        · rw [hh] at hres
          dsimp only at hres
          injection hres with hres
          subst hres
          have heq := findPort_eq_self m devTag p hh
          rw [heq] at hh
          rw [heq]
          exact hh
      dsimp only
      apply foldl_addRoute_mem_of_elem
      · exact hs
      · rw [findPort_addRouteToPort]
        rw [hfs]
        rfl
    · intro devTag hmem hres
      dsimp only
      refine List.mem_filterMap.mpr ⟨devTag, hmem, ?_⟩
      rw [hres]
    · intro devTag hmem hnone hres
      dsimp only
      refine List.mem_filterMap.mpr ⟨devTag, hmem, ?_⟩
      rw [hnone]
      dsimp only
      exact hres

/-- A module with two registered mix ports, "dst" and "src". -/
def c3Module : HwModule :=
  { name := "m", halVersionMajor := 0, halVersionMinor := 0,
    mixPorts :=
      [{ name := "dst", role := .sink, profiles := [], gains := [], flags := none,
         maxOpenCount := 1, maxActiveCount := 1, routes := [] },
       { name := "src", role := .source, profiles := [], gains := [], flags := none,
         maxOpenCount := 1, maxActiveCount := 1, routes := [] }],
    devicePorts := [], routes := [] }

/-- A route whose second source token does not resolve. -/
def c3RouteNode : XmlNode :=
  .node "route" [("type", "mix"), ("sink", "dst"), ("sources", "src,nores")] [] ""

/-- A route whose sink tag resolves to no registered port. -/
def c3BadSinkRouteNode : XmlNode :=
  .node "route" [("type", "mix"), ("sink", "ghost"), ("sources", "src")] [] ""

/-- Witness for C3: the unresolved-sink route fails leaving the module
untouched; the partially-resolving route "src,nores" is accepted with its
source list pinned to exactly the resolved source ["src"], retention of every
resolving token, and back-links on both ends. -/
theorem c3_route_sink_sources_backlinks_witness :
    ((RouteTraits.deserialize c3BadSinkRouteNode (c3Module, 5)).1 = .error .BAD_VALUE
      ∧ ((RouteTraits.deserialize c3BadSinkRouteNode (c3Module, 5)).2).1 = c3Module)
    ∧ (∃ r m', RouteTraits.deserialize c3RouteNode (c3Module, 5) = (.ok r, (m', 5 + 1))
        ∧ r.rid = 5
        ∧ r.sink = getXmlAttribute c3RouteNode "sink"
        ∧ (∀ s ∈ r.sources, c3Module.findPortByTagName s = some s)
        ∧ r.rid ∈ m'.portRouteIds r.sink
        ∧ (∀ s ∈ r.sources, r.rid ∈ m'.portRouteIds s)
        ∧ (∀ devTag ∈ (splitOnChar ',' (getXmlAttribute c3RouteNode "sources")).filter
              (fun tok => tok ≠ ""),
            c3Module.findPortByTagName devTag = some devTag → devTag ∈ r.sources)
        ∧ (∀ devTag ∈ (splitOnChar ',' (getXmlAttribute c3RouteNode "sources")).filter
              (fun tok => tok ≠ ""),
            c3Module.findPortByTagName devTag = none →
            c3Module.findPortByTagName (trim devTag) = some (trim devTag) →
            trim devTag ∈ r.sources))
    ∧ ((RouteTraits.deserialize c3RouteNode (c3Module, 5)).1.toOption.map
        (fun r => r.sources)) = some ["src"] :=
  ⟨c3_route_sink_sources_backlinks.1 c3BadSinkRouteNode c3Module 5 rfl,
   c3_route_sink_sources_backlinks.2 c3RouteNode c3Module 5 (by decide) (by decide)
     (by decide) (by decide),
   rfl⟩

/-! Claim C6. -/

theorem scoScanRoutes_no_sco :
    ∀ (l : List AudioRoute) (ft fb : Bool),
    l.any (fun r => r.rtype = .mix ∧ r.sink = "BT SCO Headset") = false →
    scoScanRoutes l ft fb =
      (ft || l.any (fun r => r.rtype = .mix ∧ r.sink = "Telephony Tx"),
       fb || l.any (fun r => r.rtype = .mix ∧ ¬(r.sink = "Telephony Tx")
         ∧ ¬(r.sink = "BT SCO Headset")
         ∧ r.sources.contains "BT SCO Headset Mic" = true),
       false) := by
  intro l
  induction l with
  | nil =>
    intro ft fb _
    simp [scoScanRoutes]
  | cons r rest ih =>
    intro ft fb h
    rw [List.any_cons] at h
    have hr : ¬(r.rtype = .mix ∧ r.sink = "BT SCO Headset") := by
      intro hc
      rw [decide_eq_true hc] at h
      exact Bool.noConfusion h
    have hrest : rest.any (fun r => r.rtype = .mix ∧ r.sink = "BT SCO Headset") = false := by
      cases hx : rest.any (fun r => r.rtype = .mix ∧ r.sink = "BT SCO Headset")
      · rfl
      · rw [hx] at h
        simp at h
    unfold scoScanRoutes
    by_cases hmix : r.rtype = AudioRouteType.mix
    · rw [if_neg (not_not_intro hmix)]
      by_cases htel : r.sink = "Telephony Tx"
      · rw [if_pos htel, ih true fb hrest]
        simp [List.any_cons, hmix, htel]
      · have hsco : ¬(r.sink = "BT SCO Headset") := fun hc => hr ⟨hmix, hc⟩
        rw [if_neg htel, if_neg hsco, ih ft _ hrest]
        simp [List.any_cons, hmix, htel, hsco, Bool.or_assoc]
    · rw [if_pos hmix]
      rw [ih ft fb hrest]
      simp [List.any_cons, hmix]

theorem scoScanRoutes_sco_found :
    ∀ (l : List AudioRoute) (ft fb : Bool),
    l.any (fun r => r.rtype = .mix ∧ r.sink = "BT SCO Headset") = true →
    (scoScanRoutes l ft fb).2.2 = true := by
  intro l
  induction l with
  | nil =>
    intro ft fb h
    simp at h
  | cons r rest ih =>
    intro ft fb h
    unfold scoScanRoutes
    by_cases hmix : r.rtype = AudioRouteType.mix
    · rw [if_neg (not_not_intro hmix)]
      by_cases htel : r.sink = "Telephony Tx"
      · rw [if_pos htel]
        apply ih
        rw [List.any_cons] at h
        have : ¬(r.rtype = .mix ∧ r.sink = "BT SCO Headset") := by
          intro hc
          rw [htel] at hc
          exact absurd hc.2 (by decide)
        rw [decide_eq_false this] at h
        simpa using h
      · by_cases hsco : r.sink = "BT SCO Headset"
        · rw [if_neg htel, if_pos hsco]
        · rw [if_neg htel, if_neg hsco]
          apply ih
          rw [List.any_cons] at h
          have : ¬(r.rtype = .mix ∧ r.sink = "BT SCO Headset") := fun hc => hsco hc.2
          rw [decide_eq_false this] at h
          simpa using h
    · rw [if_pos hmix]
      apply ih
      rw [List.any_cons] at h
      have : ¬(r.rtype = .mix ∧ r.sink = "BT SCO Headset") := fun hc => hmix hc.1
      rw [decide_eq_false this] at h
      simpa using h

theorem filterMap_findPort_eq_filter (m : HwModule) :
    ∀ l : List String, l.filterMap (fun s => m.findPortByTagName s)
      = l.filter (fun s => (m.findPortByTagName s).isSome) := by
  intro l
  induction l with
  | nil => rfl
  | cons x xs ih =>
    rcases hh : m.findPortByTagName x with _ | p
    · simp [List.filterMap_cons, List.filter_cons, hh, ih]
    · have hpx := findPort_eq_self m x p hh
      subst hpx
      simp [List.filterMap_cons, List.filter_cons, hh, ih]

/-- The route the BT-SCO fixup synthesizes: a mix route into "BT SCO Headset"
sourced from those of the four candidate names that resolve in the module. -/
def scoSynthRoute (m : HwModule) (rid : Nat) : AudioRoute :=
  { rid := rid, rtype := .mix, sink := "BT SCO Headset",
    sources := (["primary output", "deep_buffer", "compressed_offload",
      "Telephony Rx"]).filter (fun s => (m.findPortByTagName s).isSome) }

/-- C6 (amended): the BT-SCO fixup appends exactly one new mix route with sink
"BT SCO Headset" — whose sources are those of {"primary output",
"deep_buffer", "compressed_offload", "Telephony Rx"} that resolve as ports of
the module — precisely when a "BT SCO Headset" device port exists, no MIX
route sinks into "BT SCO Headset", some MIX route sinks into "Telephony Tx",
and some MIX route whose sink is neither of those two names has
"BT SCO Headset Mic" among its sources; otherwise the route list is
unchanged, and in no case is an existing route removed. -/
theorem c6_bt_sco_fixup_amended (routes : List AudioRoute)
    (devicePorts : List DeviceDescriptor) (m : HwModule) (rid : Nat) :
    ((devicePorts.any (fun d => d.tagName = "BT SCO Headset") = true
      ∧ routes.any (fun r => r.rtype = .mix ∧ r.sink = "BT SCO Headset") = false
      ∧ routes.any (fun r => r.rtype = .mix ∧ r.sink = "Telephony Tx") = true
      ∧ routes.any (fun r => r.rtype = .mix ∧ ¬(r.sink = "Telephony Tx")
          ∧ ¬(r.sink = "BT SCO Headset")
          ∧ r.sources.contains "BT SCO Headset Mic" = true) = true) →
      (fixupQualcommBtScoRoute routes devicePorts m rid).1
        = routes ++ [scoSynthRoute m rid]
      ∧ (fixupQualcommBtScoRoute routes devicePorts m rid).2.2 = rid + 1)
    ∧ (¬(devicePorts.any (fun d => d.tagName = "BT SCO Headset") = true
      ∧ routes.any (fun r => r.rtype = .mix ∧ r.sink = "BT SCO Headset") = false
      ∧ routes.any (fun r => r.rtype = .mix ∧ r.sink = "Telephony Tx") = true
      ∧ routes.any (fun r => r.rtype = .mix ∧ ¬(r.sink = "Telephony Tx")
          ∧ ¬(r.sink = "BT SCO Headset")
          ∧ r.sources.contains "BT SCO Headset Mic" = true) = true) →
      (fixupQualcommBtScoRoute routes devicePorts m rid).1 = routes)
    ∧ (∀ r ∈ routes, r ∈ (fixupQualcommBtScoRoute routes devicePorts m rid).1) := by
  have hpos : (devicePorts.any (fun d => d.tagName = "BT SCO Headset") = true
      ∧ routes.any (fun r => r.rtype = .mix ∧ r.sink = "BT SCO Headset") = false
      ∧ routes.any (fun r => r.rtype = .mix ∧ r.sink = "Telephony Tx") = true
      ∧ routes.any (fun r => r.rtype = .mix ∧ ¬(r.sink = "Telephony Tx")
          ∧ ¬(r.sink = "BT SCO Headset")
          ∧ r.sources.contains "BT SCO Headset Mic" = true) = true) →
      (fixupQualcommBtScoRoute routes devicePorts m rid).1
        = routes ++ [scoSynthRoute m rid]
      ∧ (fixupQualcommBtScoRoute routes devicePorts m rid).2.2 = rid + 1 := by
    rintro ⟨hdev, hsco, htel, hmic⟩
    unfold fixupQualcommBtScoRoute
    dsimp only
    rw [if_neg (by simp [hdev]), scoScanRoutes_no_sco routes false false hsco]
    dsimp only
    rw [if_neg (by simp), if_neg (by rw [htel, hmic]; decide)]
    constructor
    · rw [filterMap_findPort_eq_filter]
      rfl
    · rfl
  have hneg : ¬(devicePorts.any (fun d => d.tagName = "BT SCO Headset") = true
      ∧ routes.any (fun r => r.rtype = .mix ∧ r.sink = "BT SCO Headset") = false
      ∧ routes.any (fun r => r.rtype = .mix ∧ r.sink = "Telephony Tx") = true
      ∧ routes.any (fun r => r.rtype = .mix ∧ ¬(r.sink = "Telephony Tx")
          ∧ ¬(r.sink = "BT SCO Headset")
          ∧ r.sources.contains "BT SCO Headset Mic" = true) = true) →
      (fixupQualcommBtScoRoute routes devicePorts m rid).1 = routes := by
    intro hP
    unfold fixupQualcommBtScoRoute
    dsimp only
    by_cases hdev : devicePorts.any (fun d => d.tagName = "BT SCO Headset") = true
    · rw [if_neg (by simp [hdev])]
      by_cases hsco : routes.any (fun r => r.rtype = .mix ∧ r.sink = "BT SCO Headset") = true
      · rw [if_pos (scoScanRoutes_sco_found routes false false hsco)]
      · have hsco' : routes.any (fun r => r.rtype = .mix ∧ r.sink = "BT SCO Headset")
            = false := Bool.eq_false_iff.mpr hsco
        rw [scoScanRoutes_no_sco routes false false hsco']
        dsimp only
        rw [if_neg (by simp)]
        rcases Bool.eq_false_or_eq_true
            (routes.any (fun r => r.rtype = .mix ∧ r.sink = "Telephony Tx")) with h1 | h1
        · rcases Bool.eq_false_or_eq_true
              (routes.any (fun r => r.rtype = .mix ∧ ¬(r.sink = "Telephony Tx")
                ∧ ¬(r.sink = "BT SCO Headset")
                ∧ r.sources.contains "BT SCO Headset Mic" = true)) with h2 | h2
          · exact absurd ⟨hdev, hsco', h1, h2⟩ hP
          · rw [if_pos (by rw [h1, h2]; decide)]
        · rw [if_pos (by rw [h1]; simp)]
    · rw [if_pos (by simp [Bool.eq_false_iff.mpr hdev])]
  refine ⟨hpos, hneg, ?_⟩
  intro r hr
  by_cases hP : devicePorts.any (fun d => d.tagName = "BT SCO Headset") = true
      ∧ routes.any (fun r => r.rtype = .mix ∧ r.sink = "BT SCO Headset") = false
      ∧ routes.any (fun r => r.rtype = .mix ∧ r.sink = "Telephony Tx") = true
      ∧ routes.any (fun r => r.rtype = .mix ∧ ¬(r.sink = "Telephony Tx")
          ∧ ¬(r.sink = "BT SCO Headset")
          ∧ r.sources.contains "BT SCO Headset Mic" = true) = true
  · rw [(hpos hP).1]
    exact List.mem_append_left _ hr
  · rw [hneg hP]
    exact hr

/-- A "BT SCO Headset" device port. -/
def c6ScoDev : DeviceDescriptor :=
  { tagName := "BT SCO Headset", deviceType := AUDIO_DEVICE_OUT_BLUETOOTH_SCO_HEADSET,
    address := "", encodedFormats := [], profiles := [], gains := [], routes := [] }

/-- A module declaring the BT SCO Headset device and a "primary output" mix
port. -/
def c6Module : HwModule :=
  { name := "primary", halVersionMajor := 0, halVersionMinor := 0,
    mixPorts :=
      [{ name := "primary output", role := .source, profiles := [], gains := [],
         flags := none, maxOpenCount := 1, maxActiveCount := 1, routes := [] }],
    devicePorts := [c6ScoDev], routes := [] }

/-- Routes in which the "Telephony Tx" sink belongs to a MUX route while the
"BT SCO Headset Mic" source sits in a mix route. -/
def c6MuxTelRoutes : List AudioRoute :=
  [{ rid := 0, rtype := .mux, sink := "Telephony Tx", sources := [] },
   { rid := 1, rtype := .mix, sink := "primary input", sources := ["BT SCO Headset Mic"] }]

/-- C6 counterexample: at this input every condition of the claim holds — a
"BT SCO Headset" device port exists, some route's sources include
"BT SCO Headset Mic", some route's sink is "Telephony Tx", and no route sinks
into "BT SCO Headset" — yet the fixup adds no route, because the code only
counts MIX routes when looking for the "Telephony Tx" sink. -/
theorem c6_counterexample :
    (([c6ScoDev].any (fun d => d.tagName = "BT SCO Headset")) = true
      ∧ (c6MuxTelRoutes.any (fun r => r.sources.contains "BT SCO Headset Mic")) = true
      ∧ (c6MuxTelRoutes.any (fun r => r.sink = "Telephony Tx")) = true
      ∧ (c6MuxTelRoutes.all (fun r => ¬(r.sink = "BT SCO Headset"))) = true)
    ∧ (fixupQualcommBtScoRoute c6MuxTelRoutes [c6ScoDev] c6Module 2).1 = c6MuxTelRoutes
    ∧ ¬((fixupQualcommBtScoRoute c6MuxTelRoutes [c6ScoDev] c6Module 2).1.length
        = c6MuxTelRoutes.length + 1) := by
  refine ⟨⟨rfl, rfl, rfl, rfl⟩, rfl, by decide⟩

/-- The same routes with the "Telephony Tx" sink on a MIX route. -/
def c6MixTelRoutes : List AudioRoute :=
  [{ rid := 0, rtype := .mix, sink := "Telephony Tx", sources := [] },
   { rid := 1, rtype := .mix, sink := "primary input", sources := ["BT SCO Headset Mic"] }]

/-- Witness for C6's amended theorem: with the conditions satisfied through
mix routes, exactly the synthesized route is appended (here sourced only from
"primary output", the single candidate port the module has), and with the
counterexample's mux route the list is unchanged. -/
theorem c6_bt_sco_fixup_amended_witness :
    ((fixupQualcommBtScoRoute c6MixTelRoutes [c6ScoDev] c6Module 2).1
      = c6MixTelRoutes ++ [scoSynthRoute c6Module 2]
      ∧ (fixupQualcommBtScoRoute c6MixTelRoutes [c6ScoDev] c6Module 2).2.2 = 2 + 1)
    ∧ (fixupQualcommBtScoRoute c6MuxTelRoutes [c6ScoDev] c6Module 2).1 = c6MuxTelRoutes := by
  constructor
  · exact (c6_bt_sco_fixup_amended c6MixTelRoutes [c6ScoDev] c6Module 2).1
      ⟨rfl, rfl, rfl, rfl⟩
  · exact (c6_bt_sco_fixup_amended c6MuxTelRoutes [c6ScoDev] c6Module 2).2.1
      (by intro h; exact absurd h.2.2.1 (by decide))

/-! Claim C9. -/

theorem addDevice_defaultOutputDevice (cfg : AudioPolicyConfig) (d : DeviceDescriptor) :
    (cfg.addDevice d).defaultOutputDevice = cfg.defaultOutputDevice := by
  unfold AudioPolicyConfig.addDevice
  split <;> rfl

theorem attachedItems_fold_default (m : HwModule) :
    ∀ (items : List XmlNode) (cfg : AudioPolicyConfig),
    (items.foldl (fun cfg item =>
        if item.name = "item" then
          match getDeviceFromTagName m.devicePorts item.text with
          | some d => cfg.addDevice d
          | none => cfg
        else cfg) cfg).defaultOutputDevice = cfg.defaultOutputDevice := by
  intro items
  induction items with
  | nil => intro cfg; rfl
  | cons x xs ih =>
    intro cfg
    rw [List.foldl_cons, ih]
    by_cases h : x.name = "item"
    · rw [if_pos h]
      rcases hd : getDeviceFromTagName m.devicePorts x.text with _ | d
      · rfl
      · exact addDevice_defaultOutputDevice cfg d
    · rw [if_neg h]

theorem processModuleChild_not_dod (m : HwModule) (cfg : AudioPolicyConfig)
    (child : XmlNode) (hd : ¬(child.name = "defaultOutputDevice")) :
    (processModuleChild m cfg child).defaultOutputDevice = cfg.defaultOutputDevice := by
  unfold processModuleChild
  dsimp only
  rw [if_neg hd]
  by_cases ha : child.name = "attachedDevices"
  · rw [if_pos ha]
    exact attachedItems_fold_default m child.children cfg
  · rw [if_neg ha]

theorem processModuleChild_default_some (m : HwModule) (cfg : AudioPolicyConfig)
    (child : XmlNode) (h : cfg.defaultOutputDevice.isSome) :
    (processModuleChild m cfg child).defaultOutputDevice = cfg.defaultOutputDevice := by
  by_cases hd : child.name = "defaultOutputDevice"
  · unfold processModuleChild
    dsimp only
    rw [if_pos hd, if_neg (by rw [hd]; decide)]
    rcases hdev : getDeviceFromTagName m.devicePorts child.text with _ | d
    · rfl
    · dsimp only
      rw [if_neg (fun hc => by rw [hc] at h; simp at h)]
  · exact processModuleChild_not_dod m cfg child hd

theorem processModuleTopology_default_some (m : HwModule) :
    ∀ (children : List XmlNode) (cfg : AudioPolicyConfig),
    cfg.defaultOutputDevice.isSome →
    (processModuleTopology m children cfg).defaultOutputDevice
      = cfg.defaultOutputDevice := by
  intro children
  induction children with
  | nil => intro cfg _; rfl
  | cons c cs ih =>
    intro cfg h
    unfold processModuleTopology
    rw [List.foldl_cons]
    have h1 := processModuleChild_default_some m cfg c h
    have h2 : (processModuleChild m cfg c).defaultOutputDevice.isSome = true := by
      rw [h1]
      exact h
    have h3 := ih (processModuleChild m cfg c) h2
    unfold processModuleTopology at h3
    rw [h3, h1]

theorem earpieceFixStep_default (m : HwModule) (cfg : AudioPolicyConfig) (st : LoadState) :
    ((earpieceFixStep m cfg st).1).defaultOutputDevice = cfg.defaultOutputDevice := by
  unfold earpieceFixStep
  split
  · dsimp only
    rcases hdev : getDeviceFromTagName m.devicePorts "Earpiece" with _ | d
    · rfl
    · exact addDevice_defaultOutputDevice cfg d
  · rfl

theorem moduleDeserialize_default_some (cur : XmlNode) (ctx : AudioPolicyConfig)
    (st : LoadState) (rid : Nat) (h : ctx.defaultOutputDevice.isSome) :
    ((ModuleTraits.deserialize cur ctx st rid).2.1).defaultOutputDevice
      = ctx.defaultOutputDevice := by
  unfold ModuleTraits.deserialize
  dsimp only
  split
  · rfl
  · split
    · split
      · split
        · dsimp only
          rw [earpieceFixStep_default, processModuleTopology_default_some _ _ _ h]
        · rfl
      · rfl
    · rfl

/-- The spec's description of default-output-device selection, for comparison
with the implementation: the first "defaultOutputDevice" child whose text
resolves among the module's declared devices. -/
def specDefaultOutputDevice (m : HwModule) (children : List XmlNode) :
    Option DeviceDescriptor :=
  children.findSome? (fun child =>
    if child.name = "defaultOutputDevice" then
      getDeviceFromTagName m.devicePorts child.text
    else none)

theorem processModuleTopology_default_none (m : HwModule) :
    ∀ (children : List XmlNode) (cfg : AudioPolicyConfig),
    cfg.defaultOutputDevice = none →
    (processModuleTopology m children cfg).defaultOutputDevice
      = specDefaultOutputDevice m children := by
  intro children
  induction children with
  | nil =>
    intro cfg h
    exact h
  | cons c cs ih =>
    intro cfg h
    unfold processModuleTopology
    rw [List.foldl_cons]
    by_cases hd : c.name = "defaultOutputDevice"
    · rcases hdev : getDeviceFromTagName m.devicePorts c.text with _ | d
      · have hstep : (processModuleChild m cfg c).defaultOutputDevice = none := by
          unfold processModuleChild
          dsimp only
          rw [if_pos hd, if_neg (by rw [hd]; decide), hdev]
          exact h
        have h3 := ih (processModuleChild m cfg c) hstep
        unfold processModuleTopology at h3
        rw [h3]
        unfold specDefaultOutputDevice
        simp [List.findSome?_cons, hd, hdev]
      · have hstep : (processModuleChild m cfg c).defaultOutputDevice = some d := by
          unfold processModuleChild
          dsimp only
          rw [if_pos hd, if_neg (by rw [hd]; decide), hdev]
          dsimp only
          rw [if_pos h]
        have h3 := processModuleTopology_default_some m cs (processModuleChild m cfg c)
          (by rw [hstep]; rfl)
        unfold processModuleTopology at h3
        rw [h3, hstep]
        unfold specDefaultOutputDevice
        simp [List.findSome?_cons, hd, hdev]
    · have hstep := processModuleChild_not_dod m cfg c hd
      have h3 := ih (processModuleChild m cfg c) (by rw [hstep]; exact h)
      unfold processModuleTopology at h3
      rw [h3]
      unfold specDefaultOutputDevice
      simp [List.findSome?_cons, hd]

theorem foldl_topology_default_some :
    ∀ (ms : List (HwModule × List XmlNode)) (cfg : AudioPolicyConfig),
    cfg.defaultOutputDevice.isSome →
    ((ms.foldl (fun c p => processModuleTopology p.1 p.2 c) cfg).defaultOutputDevice)
      = cfg.defaultOutputDevice := by
  intro ms
  induction ms with
  | nil => intro cfg _; rfl
  | cons p ps ih =>
    intro cfg h
    rw [List.foldl_cons]
    have h1 := processModuleTopology_default_some p.1 p.2 cfg h
    rw [ih _ (by rw [h1]; exact h), h1]

theorem configDefault_first_module_wins :
    ∀ (ms : List (HwModule × List XmlNode)) (cfg : AudioPolicyConfig),
    cfg.defaultOutputDevice = none →
    ((ms.foldl (fun c p => processModuleTopology p.1 p.2 c) cfg).defaultOutputDevice)
      = ms.findSome? (fun p => specDefaultOutputDevice p.1 p.2) := by
  intro ms
  induction ms with
  | nil =>
    intro cfg h
    exact h
  | cons p ps ih =>
    intro cfg h
    rw [List.foldl_cons]
    rcases hspec : specDefaultOutputDevice p.1 p.2 with _ | d
    · rw [ih _ (by rw [processModuleTopology_default_none p.1 p.2 cfg h, hspec])]
      simp [List.findSome?_cons, hspec]
    · have hsome : (processModuleTopology p.1 p.2 cfg).defaultOutputDevice = some d := by
        rw [processModuleTopology_default_none p.1 p.2 cfg h, hspec]
      rw [foldl_topology_default_some ps _ (by rw [hsome]; rfl), hsome]
      simp [List.findSome?_cons, hspec]

/-- C9: the config-level default output device is never overwritten once set
(a full module deserialization leaves a set default untouched), and across a
sequence of module topology walks starting from an unset default the final
default is the first module's (in processing order) resolving
default-output-device declaration. -/
theorem c9_default_output_device_first_wins :
    (∀ (cur : XmlNode) (ctx : AudioPolicyConfig) (st : LoadState) (rid : Nat),
      ctx.defaultOutputDevice.isSome →
      ((ModuleTraits.deserialize cur ctx st rid).2.1).defaultOutputDevice
        = ctx.defaultOutputDevice)
    ∧ (∀ (ms : List (HwModule × List XmlNode)) (cfg : AudioPolicyConfig),
      cfg.defaultOutputDevice = none →
      ((ms.foldl (fun c p => processModuleTopology p.1 p.2 c) cfg).defaultOutputDevice)
        = ms.findSome? (fun p => specDefaultOutputDevice p.1 p.2)) :=
  ⟨moduleDeserialize_default_some, configDefault_first_module_wins⟩

def c9SpeakerDev : DeviceDescriptor :=
  { tagName := "Speaker", deviceType := AUDIO_DEVICE_OUT_SPEAKER, address := "",
    encodedFormats := [], profiles := [], gains := [], routes := [] }

def c9HeadsetDev : DeviceDescriptor :=
  { tagName := "Headset", deviceType := AUDIO_DEVICE_OUT_WIRED_HEADSET, address := "",
    encodedFormats := [], profiles := [], gains := [], routes := [] }

def c9Module1 : HwModule :=
  { name := "primary", halVersionMajor := 0, halVersionMinor := 0,
    mixPorts := [], devicePorts := [c9SpeakerDev], routes := [] }

def c9Module2 : HwModule :=
  { name := "usb", halVersionMajor := 0, halVersionMinor := 0,
    mixPorts := [], devicePorts := [c9HeadsetDev], routes := [] }

/-- Witness for C9: a set default survives a whole module deserialization, and
with two modules both declaring resolving defaults the first one wins. -/
theorem c9_default_output_device_first_wins_witness :
    (((ModuleTraits.deserialize (.node "module" [("name", "m")] [] "")
        { emptyConfig with defaultOutputDevice := some c9SpeakerDev }
        initialLoadState 0).2.1).defaultOutputDevice = some c9SpeakerDev)
    ∧ ((([(c9Module1, [XmlNode.node "defaultOutputDevice" [] [] "Speaker"]),
          (c9Module2, [XmlNode.node "defaultOutputDevice" [] [] "Headset"])].foldl
        (fun c p => processModuleTopology p.1 p.2 c) emptyConfig).defaultOutputDevice)
      = some c9SpeakerDev) := by
  constructor
  · exact c9_default_output_device_first_wins.1 (.node "module" [("name", "m")] [] "")
      { emptyConfig with defaultOutputDevice := some c9SpeakerDev } initialLoadState 0 rfl
  · rw [c9_default_output_device_first_wins.2 _ emptyConfig rfl]
    rfl

/-! Claim C5. -/

theorem eraseFirstSuchThat_sublist {α : Type} (p : α → Bool) :
    ∀ l : List α, List.Sublist (eraseFirstSuchThat p l) l := by
  intro l
  induction l with
  | nil => exact List.Sublist.refl []
  | cons x xs ih =>
    unfold eraseFirstSuchThat
    by_cases h : p x
    · rw [if_pos h]
      exact List.sublist_cons_self x xs
    · rw [if_neg h]
      exact ih.cons₂ x

theorem eraseFirstSuchThat_filter_nil {α : Type} (p : α → Bool) :
    ∀ l : List α, (l.filter p).length ≤ 1 → (eraseFirstSuchThat p l).filter p = [] := by
  intro l
  induction l with
  | nil => intro _; rfl
  | cons x xs ih =>
    intro hlen
    unfold eraseFirstSuchThat
    by_cases h : p x
    · rw [if_pos h]
      rw [List.filter_cons_of_pos h, List.length_cons] at hlen
      have h0 : (xs.filter p).length = 0 := by omega
      exact List.length_eq_zero.mp h0
    · rw [if_neg h]
      rw [List.filter_cons_of_neg h] at hlen
      rw [List.filter_cons_of_neg h]
      exact ih hlen

theorem eraseFirstSuchThat_mem {α : Type} (p : α → Bool) :
    ∀ (l : List α) (x : α), x ∈ l → p x = false → x ∈ eraseFirstSuchThat p l := by
  intro l
  induction l with
  | nil =>
    intro x hx _
    exact absurd hx (List.not_mem_nil x)
  | cons y ys ih =>
    intro x hx hpx
    unfold eraseFirstSuchThat
    rcases List.mem_cons.mp hx with he | hm
    · subst he
      rw [if_neg (by rw [hpx]; exact Bool.false_ne_true)]
      exact List.mem_cons_self x (eraseFirstSuchThat p ys)
    · by_cases h : p y
      · rw [if_pos h]
        exact hm
      · rw [if_neg h]
        exact List.mem_cons_of_mem y (ih x hm hpx)

theorem filter_nil_of_sublist {α : Type} (p : α → Bool) {l₁ l₂ : List α}
    (h : List.Sublist l₁ l₂) (h2 : l₂.filter p = []) : l₁.filter p = [] := by
  have hs := h.filter p
  rw [h2] at hs
  exact List.sublist_nil.mp hs

theorem foldl_erase_sublist {α : Type} (p : String → α → Bool) :
    ∀ (outs : List String) (l : List α),
    List.Sublist (outs.foldl (fun acc o => eraseFirstSuchThat (p o) acc) l) l := by
  intro outs
  induction outs with
  | nil => intro l; exact List.Sublist.refl l
  | cons o os ih =>
    intro l
    rw [List.foldl_cons]
    exact (ih (eraseFirstSuchThat (p o) l)).trans (eraseFirstSuchThat_sublist (p o) l)

theorem foldl_erase_filter_nil {α : Type} (p : String → α → Bool) :
    ∀ (outs : List String) (l : List α),
    (∀ out ∈ outs, (l.filter (p out)).length ≤ 1) →
    ∀ out ∈ outs,
      ((outs.foldl (fun acc o => eraseFirstSuchThat (p o) acc) l).filter (p out)) = [] := by
  intro outs
  induction outs with
  | nil =>
    intro l _ out hout
    exact absurd hout (List.not_mem_nil out)
  | cons o os ih =>
    intro l hu out hout
    rw [List.foldl_cons]
    rcases List.mem_cons.mp hout with he | hm
    · subst he
      apply filter_nil_of_sublist (p out) (foldl_erase_sublist p os _)
      exact eraseFirstSuchThat_filter_nil (p out) l (hu out (List.mem_cons_self out os))
    · apply ih (eraseFirstSuchThat (p o) l)
      · intro out' hout'
        calc ((eraseFirstSuchThat (p o) l).filter (p out')).length
            ≤ (l.filter (p out')).length :=
              ((eraseFirstSuchThat_sublist (p o) l).filter (p out')).length_le
          _ ≤ 1 := hu out' (List.mem_cons_of_mem o hout')
      · exact hm

theorem foldl_erase_mem {α : Type} (p : String → α → Bool) :
    ∀ (outs : List String) (l : List α) (x : α), x ∈ l →
    (∀ out ∈ outs, p out x = false) →
    x ∈ outs.foldl (fun acc o => eraseFirstSuchThat (p o) acc) l := by
  intro outs
  induction outs with
  | nil =>
    intro l x hx _
    exact hx
  | cons o os ih =>
    intro l x hx hp
    rw [List.foldl_cons]
    exact ih _ x (eraseFirstSuchThat_mem (p o) l x hx (hp o (List.mem_cons_self o os)))
      (fun out hout => hp out (List.mem_cons_of_mem o hout))

theorem addSynthA2dpRoute_spec (sinkName : String) (routes : List AudioRoute)
    (m : HwModule) (rid : Nat)
    (hsrc : m.findPortByTagName "a2dp output" = some "a2dp output") :
    (addSynthA2dpRoute sinkName (routes, m, rid)).1
      = routes ++ [{ rid := rid, rtype := .mix, sink := sinkName, sources := ["a2dp output"] }]
    ∧ (addSynthA2dpRoute sinkName (routes, m, rid)).2.2 = rid + 1
    ∧ ((addSynthA2dpRoute sinkName (routes, m, rid)).2.1).findPortByTagName "a2dp output"
      = some "a2dp output" := by
  unfold addSynthA2dpRoute
  dsimp only
  rw [hsrc]
  rcases hsink : m.findPortByTagName sinkName with _ | sp
  · dsimp only
    refine ⟨rfl, rfl, ?_⟩
    rw [findPort_addRouteToPort]
    exact hsrc
  · dsimp only
    refine ⟨rfl, rfl, ?_⟩
    rw [findPort_addRouteToPort, findPort_addRouteToPort]
    exact hsrc

/-- C5 (amended): while the A2DP-offload-disable flag is set, (i) the "a2dp"
module lacking an "a2dp output" mix port gains exactly the synthesized
source mix port; (ii) it gains exactly the three synthesized Bluetooth device
ports; (iii) provided the "a2dp output" port is registered, it gains exactly
one synthesized mix route per synthesized device port, each sourced solely
from "a2dp output", and the route-id allocator advances by three; (iv) in the
"primary" module, the first device port carrying each synthesized name is
erased — so none remain when each name occurs at most once — and (v) device
ports carrying none of those names survive; (vi) likewise the first mix route
sinking into each synthesized name is erased — so none remain when each name
is the sink of at most one mix route — and (vii) routes that are not mix
routes into one of those names survive. -/
theorem c5_a2dp_synthesis_amended (st : LoadState)
    (hflag : st.forceDisableA2dpOffload = true) :
    (∀ mixPorts : List IOProfile,
      (∀ p ∈ mixPorts, p.name ≠ "a2dp output") →
      moduleApplyA2dpMixPorts true mixPorts st = (mixPorts ++ [a2dpSynthMixPort], st))
    ∧ (∀ devicePorts : List DeviceDescriptor,
      moduleApplyA2dpDevicePorts true false devicePorts st
        = devicePorts ++
          [mkA2dpSynthDevicePort AUDIO_DEVICE_OUT_BLUETOOTH_A2DP "BT A2DP Out",
           mkA2dpSynthDevicePort AUDIO_DEVICE_OUT_BLUETOOTH_A2DP_HEADPHONES "BT A2DP Headphones",
           mkA2dpSynthDevicePort AUDIO_DEVICE_OUT_BLUETOOTH_A2DP_SPEAKER "BT A2DP Speaker"])
    ∧ (∀ (routes : List AudioRoute) (m : HwModule) (rid : Nat),
      m.findPortByTagName "a2dp output" = some "a2dp output" →
      (moduleApplyA2dpRoutes "a2dp" routes m rid st).1
        = routes ++
          [{ rid := rid, rtype := .mix, sink := "BT A2DP Out", sources := ["a2dp output"] },
           { rid := rid + 1, rtype := .mix, sink := "BT A2DP Headphones",
             sources := ["a2dp output"] },
           { rid := rid + 2, rtype := .mix, sink := "BT A2DP Speaker",
             sources := ["a2dp output"] }]
      ∧ (moduleApplyA2dpRoutes "a2dp" routes m rid st).2.2 = rid + 3)
    ∧ (∀ devicePorts : List DeviceDescriptor,
      (∀ out ∈ a2dpOuts, (devicePorts.filter (fun d => d.tagName == out)).length ≤ 1) →
      ∀ out ∈ a2dpOuts,
        ((moduleApplyA2dpDevicePorts false true devicePorts st).filter
          (fun d => d.tagName == out)) = [])
    ∧ (∀ (devicePorts : List DeviceDescriptor) (d : DeviceDescriptor),
      d ∈ devicePorts → (∀ out ∈ a2dpOuts, (d.tagName == out) = false) →
      d ∈ moduleApplyA2dpDevicePorts false true devicePorts st)
    ∧ (∀ (routes : List AudioRoute) (m : HwModule) (rid : Nat),
      (∀ out ∈ a2dpOuts,
        (routes.filter (fun r => r.rtype == AudioRouteType.mix && r.sink == out)).length ≤ 1) →
      ∀ out ∈ a2dpOuts,
        (((moduleApplyA2dpRoutes "primary" routes m rid st).1).filter
          (fun r => r.rtype == AudioRouteType.mix && r.sink == out)) = [])
    ∧ (∀ (routes : List AudioRoute) (m : HwModule) (rid : Nat) (r : AudioRoute),
      r ∈ routes →
      (∀ out ∈ a2dpOuts, (r.rtype == AudioRouteType.mix && r.sink == out) = false) →
      r ∈ (moduleApplyA2dpRoutes "primary" routes m rid st).1) := by
  refine ⟨?_, ?_, ?_, ?_, ?_, ?_, ?_⟩
  · intro mixPorts hall
    have hany : mixPorts.any (fun p => p.name = "a2dp output") = false := by
      simp only [List.any_eq_false, decide_eq_true_eq]
      exact hall
    unfold moduleApplyA2dpMixPorts
    dsimp only
    have hc1 : ¬(st.forceDisableA2dpOffload = true ∧ true = true ∧
        mixPorts.any (fun p => p.name = "a2dp output") = true) := by
      intro h
      rw [hany] at h
      exact Bool.false_ne_true h.2.2
    rw [if_neg hc1]
    rw [if_pos ⟨hflag, rfl⟩]
  · intro devicePorts
    unfold moduleApplyA2dpDevicePorts
    rw [if_pos hflag]
    rfl
  · intro routes m rid hs
    have hred : moduleApplyA2dpRoutes "a2dp" routes m rid st
        = addSynthA2dpRoute "BT A2DP Speaker"
            (addSynthA2dpRoute "BT A2DP Headphones"
              (addSynthA2dpRoute "BT A2DP Out" (routes, m, rid))) := by
      unfold moduleApplyA2dpRoutes
      rw [if_pos hflag, if_neg (by decide), if_pos rfl]
    rw [hred]
    rcases ha1 : addSynthA2dpRoute "BT A2DP Out" (routes, m, rid) with ⟨routes1, m1, rid1⟩
    have h1 := addSynthA2dpRoute_spec "BT A2DP Out" routes m rid hs
    rw [ha1] at h1
    dsimp only at h1
    obtain ⟨h1r, h1i, h1f⟩ := h1
    rcases ha2 : addSynthA2dpRoute "BT A2DP Headphones" (routes1, m1, rid1)
      with ⟨routes2, m2, rid2⟩
    have h2 := addSynthA2dpRoute_spec "BT A2DP Headphones" routes1 m1 rid1 h1f
    rw [ha2] at h2
    dsimp only at h2
    obtain ⟨h2r, h2i, h2f⟩ := h2
    rcases ha3 : addSynthA2dpRoute "BT A2DP Speaker" (routes2, m2, rid2)
      with ⟨routes3, m3, rid3⟩
    have h3 := addSynthA2dpRoute_spec "BT A2DP Speaker" routes2 m2 rid2 h2f
    rw [ha3] at h3
    dsimp only at h3
    obtain ⟨h3r, h3i, h3f⟩ := h3
    constructor
    · dsimp only
      rw [h3r, h2r, h1r, h2i, h1i]
      simp [List.append_assoc]
    · dsimp only
      rw [h3i, h2i, h1i]
  · intro devicePorts hu out hout
    have hred : moduleApplyA2dpDevicePorts false true devicePorts st
        = a2dpOuts.foldl
            (fun dps out => eraseFirstSuchThat (fun d => d.tagName == out) dps) devicePorts := by
      unfold moduleApplyA2dpDevicePorts
      rw [if_pos hflag]
      rfl
    rw [hred]
    exact foldl_erase_filter_nil (fun o d => d.tagName == o) a2dpOuts devicePorts hu out hout
  · intro devicePorts d hd hout
    have hred : moduleApplyA2dpDevicePorts false true devicePorts st
        = a2dpOuts.foldl
            (fun dps out => eraseFirstSuchThat (fun d => d.tagName == out) dps) devicePorts := by
      unfold moduleApplyA2dpDevicePorts
      rw [if_pos hflag]
      rfl
    rw [hred]
    exact foldl_erase_mem (fun o d => d.tagName == o) a2dpOuts devicePorts d hd hout
  · intro routes m rid hu out hout
    have hred : (moduleApplyA2dpRoutes "primary" routes m rid st).1
        = a2dpOuts.foldl (fun rs out => eraseFirstSuchThat
            (fun r => r.rtype == AudioRouteType.mix && r.sink == out) rs) routes := by
      unfold moduleApplyA2dpRoutes
      rw [if_pos hflag, if_pos rfl]
    rw [hred]
    exact foldl_erase_filter_nil (fun o r => r.rtype == AudioRouteType.mix && r.sink == o)
      a2dpOuts routes hu out hout
  · intro routes m rid r hr hout
    have hred : (moduleApplyA2dpRoutes "primary" routes m rid st).1
        = a2dpOuts.foldl (fun rs out => eraseFirstSuchThat
            (fun r => r.rtype == AudioRouteType.mix && r.sink == out) rs) routes := by
      unfold moduleApplyA2dpRoutes
      rw [if_pos hflag, if_pos rfl]
    rw [hred]
    exact foldl_erase_mem (fun o r => r.rtype == AudioRouteType.mix && r.sink == o)
      a2dpOuts routes r hr hout

/-- A load state in which the process-wide A2DP-offload-disable flag is set. -/
def a2dpFlagState : LoadState :=
  { gainIndex := 0, forceDisableA2dpOffload := true, fixedEarpieceChannels := false }

/-- A "primary" module declaring the "BT A2DP Out" mix port and two mix routes
sinking into it. -/
def c5PrimaryNode : XmlNode :=
  .node "module" [("name", "primary")]
    [.node "mixPort" [("name", "BT A2DP Out"), ("role", "sink")] [] "",
     .node "route" [("type", "mix"), ("sink", "BT A2DP Out"), ("sources", "x")] [] "",
     .node "route" [("type", "mix"), ("sink", "BT A2DP Out"), ("sources", "y")] [] ""] ""

/-- C5 counterexample: with the A2DP-offload-disable flag set, deserializing a
"primary" module holding two mix routes sinking into "BT A2DP Out" leaves one
such route in place — the erasure removes only the first matching route per
name, while the claim asserts every such route is removed. -/
theorem c5_counterexample :
    ((ModuleTraits.deserialize c5PrimaryNode emptyConfig a2dpFlagState 0).1.toOption.map
        (fun m => (m.routes.filter (fun r =>
          r.rtype == AudioRouteType.mix && r.sink == "BT A2DP Out")).length) = some 1)
    ∧ ¬((ModuleTraits.deserialize c5PrimaryNode emptyConfig a2dpFlagState 0).1.toOption.map
        (fun m => (m.routes.filter (fun r =>
          r.rtype == AudioRouteType.mix && r.sink == "BT A2DP Out")).length) = some 0) :=
  ⟨rfl, by decide⟩

/-- An "a2dp" module already holding the synthesized "a2dp output" mix port. -/
def c5A2dpModule : HwModule :=
  { name := "a2dp", halVersionMajor := 2, halVersionMinor := 0,
    mixPorts := [a2dpSynthMixPort], devicePorts := [], routes := [] }

theorem c5_a2dp_synthesis_amended_witness :
    a2dpFlagState.forceDisableA2dpOffload = true
    ∧ moduleApplyA2dpMixPorts true [] a2dpFlagState = ([a2dpSynthMixPort], a2dpFlagState)
    ∧ moduleApplyA2dpDevicePorts true false [] a2dpFlagState
        = [mkA2dpSynthDevicePort AUDIO_DEVICE_OUT_BLUETOOTH_A2DP "BT A2DP Out",
           mkA2dpSynthDevicePort AUDIO_DEVICE_OUT_BLUETOOTH_A2DP_HEADPHONES "BT A2DP Headphones",
           mkA2dpSynthDevicePort AUDIO_DEVICE_OUT_BLUETOOTH_A2DP_SPEAKER "BT A2DP Speaker"]
    ∧ (moduleApplyA2dpRoutes "a2dp" [] c5A2dpModule 7 a2dpFlagState).1
        = [{ rid := 7, rtype := .mix, sink := "BT A2DP Out", sources := ["a2dp output"] },
           { rid := 8, rtype := .mix, sink := "BT A2DP Headphones", sources := ["a2dp output"] },
           { rid := 9, rtype := .mix, sink := "BT A2DP Speaker", sources := ["a2dp output"] }]
    ∧ ((moduleApplyA2dpDevicePorts false true
          [mkA2dpSynthDevicePort AUDIO_DEVICE_OUT_BLUETOOTH_A2DP "BT A2DP Out"]
          a2dpFlagState).filter (fun d => d.tagName == "BT A2DP Out")) = [] := by
  refine ⟨rfl, ?_, ?_, ?_, ?_⟩
  · exact (c5_a2dp_synthesis_amended a2dpFlagState rfl).1 []
      (fun p hp => absurd hp (List.not_mem_nil p))
  · exact (c5_a2dp_synthesis_amended a2dpFlagState rfl).2.1 []
  · exact ((c5_a2dp_synthesis_amended a2dpFlagState rfl).2.2.1 [] c5A2dpModule 7 rfl).1
  · exact (c5_a2dp_synthesis_amended a2dpFlagState rfl).2.2.2.1
      [mkA2dpSynthDevicePort AUDIO_DEVICE_OUT_BLUETOOTH_A2DP "BT A2DP Out"]
      (by decide) "BT A2DP Out" (by decide)
